import Mathlib

/-!
Verification of the xhs-api-client library (Python) against its
natural-language specification, via a shallow embedding in Lean 4.

The embedding models:
* JSON values exchanged with the two servers (`Json`)
* Python runtime behaviours needed by the code under study: `dict.get`
  (with `AttributeError` on non-dicts), subscripting (`KeyError`),
  truthiness, dict construction with key overwrite
* `TokenManager` (src/token_manager.py)
* `BaseAPI` construction, cookie loading and `_make_request`
  (src/api/base.py)
* the pagination helpers of `HomefeedAPI`, `SearchAPI`, `CommentsAPI`
  and `UserAPI` (src/api/homefeed.py, search.py, comments.py, user.py)
* the reshaping functions `CommentsAPI.parse_comment` and
  `UserAPI.get_user_profile` (response-to-record part)
* the relevant `XHSClient` methods (src/xhs_client.py)

External I/O (HTTP calls) is modelled by passing the outcome of each
attempted HTTP exchange as an explicit argument and returning the list
of requests the code issued, so that theorems can speak about how many
requests were made and what they carried.
-/

set_option autoImplicit false

namespace XhsApi

/-- JSON values, as produced by `response.json()` and consumed by the
client.  Objects are modelled as association lists in field order. -/
inductive Json where
  | null
  | bool (b : Bool)
  | num (n : Int)
  | str (s : String)
  | arr (elems : List Json)
  | obj (fields : List (String × Json))

/-- Python exceptions that the modelled code can raise.  `exception`
is the generic `Exception(msg)` the code raises itself. -/
inductive PyError where
  | attributeError
  | keyError
  | typeError
  | fileNotFoundError
  | valueError
  | exception (msg : String)
deriving DecidableEq, Repr

mutual

/-- Structural boolean equality on JSON values (used for dictionary
keys in the token cache). -/
def Json.beq : Json → Json → Bool
  | .null, .null => true
  | .bool a, .bool b => a == b
  | .num a, .num b => a == b
  | .str a, .str b => a == b
  | .arr a, .arr b => Json.beqList a b
  | .obj a, .obj b => Json.beqFields a b
  | _, _ => false

/-- Elementwise `Json.beq` on arrays. -/
def Json.beqList : List Json → List Json → Bool
  | [], [] => true
  | x :: xs, y :: ys => Json.beq x y && Json.beqList xs ys
  | _, _ => false

/-- Elementwise `Json.beq` on object fields. -/
def Json.beqFields : List (String × Json) → List (String × Json) → Bool
  | [], [] => true
  | (k1, v1) :: xs, (k2, v2) :: ys => k1 == k2 && Json.beq v1 v2 && Json.beqFields xs ys
  | _, _ => false

end

instance : BEq Json := ⟨Json.beq⟩

/-- Python truthiness (`if x:`) on JSON values: `None`, `False`, `0`,
empty string, empty list and empty dict are falsy. -/
def Json.truthy : Json → Bool
  | .null => false
  | .bool b => b
  | .num n => n != 0
  | .str s => s != ""
  | .arr elems => !elems.isEmpty
  | .obj fields => !fields.isEmpty

/-- Python `x.get(k, d)`: returns the value stored under `k`, or `d`
when absent; raises `AttributeError` when `x` is not a dict. -/
def Json.getD (j : Json) (k : String) (d : Json) : Except PyError Json :=
  match j with
  | .obj fields => .ok ((List.lookup k fields).getD d)
  | _ => .error .attributeError

/-- Python `x[k]` subscripting on a dict: raises `KeyError` when the
key is absent and `TypeError` when `x` is not a dict. -/
def Json.index (j : Json) (k : String) : Except PyError Json :=
  match j with
  | .obj fields =>
    match List.lookup k fields with
    | some v => .ok v
    | none => .error .keyError
  | _ => .error .typeError

/-- Python `str()` on the scalar JSON values the code converts
(the only conversion performed is `str(x_t)` on a number). -/
def pyStr : Json → String
  | .str s => s
  | .num n => toString n
  | .bool true => "True"
  | .bool false => "False"
  | .null => "None"
  | .arr _ => ""
  | .obj _ => ""

/-- Python dict insertion `d[k] = v`: overwrites an existing binding,
otherwise appends. -/
def pyInsert {α : Type} [BEq α] {β : Type} :
    List (α × β) → α → β → List (α × β)
  | [], k, v => [(k, v)]
  | (k0, v0) :: rest, k, v =>
    if k0 == k then (k0, v) :: rest else (k0, v0) :: pyInsert rest k v

/-- Build a Python dict from a sequence of pairs (later pairs
overwrite earlier ones), as in a dict comprehension. -/
def pyDict {α : Type} [BEq α] {β : Type} (pairs : List (α × β)) : List (α × β) :=
  pairs.foldl (fun d kv => pyInsert d kv.1 kv.2) []

/-- Python `s.rstrip(c)` for a single character. -/
def rstripChar (s : String) (c : Char) : String :=
  ((s.data.reverse.dropWhile (fun x => x = c)).reverse).asString

/-- An HTTP response as seen by the client: status code and parsed
JSON body. -/
structure HttpResponse where
  status : Nat
  body : Json

/-- Outcome of one attempted HTTP exchange: either a response arrived
or the request layer raised (connection error, timeout, ...). -/
inductive HttpOutcome where
  | resp (r : HttpResponse)
  | netError (msg : String)

/-- A request issued by the client, with everything it carried. -/
structure HttpRequest where
  method : String
  url : String
  headers : List (String × String)
  cookies : List (String × String)
  body : Json

/-- `requests.Response.raise_for_status` raises exactly for status
codes in the 4xx/5xx range. -/
def raiseForStatus (r : HttpResponse) : Bool :=
  400 ≤ r.status

/-! ## TokenManager (src/token_manager.py) -/

/-- One entry of `TokenManager._xs_common_cache`: the dict
`{"token": ..., "expires_at": ...}` stored after a server response. -/
structure TMCacheEntry where
  token : Json
  expires_at : Json

/-- The state of a `TokenManager` instance.  The cache key
`f"{a1 or 'default'}:{json.dumps(fingerprint or {}, sort_keys=True)}"`
is modelled by the pair of the two components instead of their string
serialization (json.dumps with sorted keys is injective on the values
involved, so the pair carries the same information). -/
structure TokenManager where
  server_url : String
  api_key : String
  cache_xs_common : Bool
  xs_common_cache : List ((String × Json) × TMCacheEntry)
  session_headers : List (String × String)

/-- `TokenManager.__init__`: strips trailing slashes from the server
URL and installs the session headers carrying the bearer key. -/
def TokenManager.init (server_url api_key : String) (cache_xs_common : Bool) : TokenManager :=
  { server_url := rstripChar server_url '/'
  , api_key := api_key
  , cache_xs_common := cache_xs_common
  , xs_common_cache := []
  , session_headers :=
      [("Authorization", "Bearer " ++ api_key), ("Content-Type", "application/json")] }

/-- The request body built by `TokenManager.get_xs_token`: always
`endpoint` and `payload`, then `a1` only when truthy, then
`timestamp_ms` only when truthy. -/
def TokenManager.xsRequestBody (endpoint : String) (payload : Json)
    (a1 : Option String) (timestamp_ms : Option Int) : List (String × Json) :=
  let base := [("endpoint", Json.str endpoint), ("payload", payload)]
  let withA1 :=
    match a1 with
    | some s => if s ≠ "" then base ++ [("a1", Json.str s)] else base
    | none => base
  match timestamp_ms with
  | some t => if t ≠ 0 then withA1 ++ [("timestamp_ms", Json.num t)] else withA1
  | none => withA1

/-- Result of a `TokenManager` call: the Python return value or the
exception raised, the state afterwards, and the requests issued. -/
structure TMCallResult (α : Type) where
  result : Except PyError α
  tm : TokenManager
  requests : List HttpRequest

/-- `TokenManager.get_xs_token`: one POST to
`<server_url>/api/v1/tokens/xs`; a transport error or an error status
is wrapped into a generic `Exception`; on success returns
`(data["x_s"], data["x_t"])`. -/
def TokenManager.get_xs_token (tm : TokenManager) (endpoint : String) (payload : Json)
    (a1 : Option String) (timestamp_ms : Option Int) (outcome : HttpOutcome) :
    TMCallResult (Json × Json) :=
  let url := tm.server_url ++ "/api/v1/tokens/xs"
  let req : HttpRequest :=
    { method := "POST", url := url, headers := tm.session_headers, cookies := []
    , body := Json.obj (TokenManager.xsRequestBody endpoint payload a1 timestamp_ms) }
  let result : Except PyError (Json × Json) :=
    match outcome with
    | .netError msg => .error (.exception ("Failed to get X-S token: " ++ msg))
    | .resp r =>
      if raiseForStatus r then
        .error (.exception "Failed to get X-S token: HTTPError")
      else
        match r.body.index "x_s", r.body.index "x_t" with
        | .ok xs, .ok xt => .ok (xs, xt)
        | .error e, _ => .error e
        | _, .error e => .error e
  { result := result, tm := tm, requests := [req] }

/-- The cache key of `TokenManager.get_xs_common_token`, modelled as
the pair `(a1 or 'default', fingerprint or {})`. -/
def TokenManager.cacheKey (a1 : Option String) (fingerprint : Option Json) : String × Json :=
  ( match a1 with
    | some s => if s ≠ "" then s else "default"
    | none => "default"
  , match fingerprint with
    | some fp => if fp.truthy then fp else Json.obj []
    | none => Json.obj [] )

/-- The cache probe performed before any request: only consulted when
caching is enabled; a hit is returned only when the stored
`expires_at` is strictly greater than the current time in
milliseconds; comparing a non-numeric stored value raises
`TypeError` (as Python `>` would). -/
def TokenManager.cacheProbe (tm : TokenManager) (key : String × Json) (now_ms : Int) :
    Except PyError (Option Json) :=
  if tm.cache_xs_common then
    match List.lookup key tm.xs_common_cache with
    | some e =>
      match e.expires_at with
      | Json.num n => if n > now_ms then .ok (some e.token) else .ok none
      | _ => .error .typeError
    | none => .ok none
  else .ok none

/-- The request body built by `TokenManager.get_xs_common_token`:
`a1` only when truthy, then `fingerprint` only when truthy. -/
def TokenManager.xsCommonRequestBody (a1 : Option String) (fingerprint : Option Json) :
    List (String × Json) :=
  let base : List (String × Json) := []
  let withA1 :=
    match a1 with
    | some s => if s ≠ "" then base ++ [("a1", Json.str s)] else base
    | none => base
  match fingerprint with
  | some fp => if fp.truthy then withA1 ++ [("fingerprint", fp)] else withA1
  | none => withA1

/-- `TokenManager.get_xs_common_token`: returns a cached token when
the cache holds an unexpired entry for the key; otherwise POSTs to
`<server_url>/api/v1/tokens/xs-common`, and on success returns
`data["x_s_common"]`, storing it with `data["expires_at"]` when
caching is enabled. -/
def TokenManager.get_xs_common_token (tm : TokenManager) (a1 : Option String)
    (fingerprint : Option Json) (now_ms : Int) (outcome : HttpOutcome) :
    TMCallResult Json :=
  let key := TokenManager.cacheKey a1 fingerprint
  match tm.cacheProbe key now_ms with
  | .error e => { result := .error e, tm := tm, requests := [] }
  | .ok (some token) => { result := .ok token, tm := tm, requests := [] }
  | .ok none =>
    let url := tm.server_url ++ "/api/v1/tokens/xs-common"
    let req : HttpRequest :=
      { method := "POST", url := url, headers := tm.session_headers, cookies := []
      , body := Json.obj (TokenManager.xsCommonRequestBody a1 fingerprint) }
    match outcome with
    | .netError msg =>
      { result := .error (.exception ("Failed to get X-S-Common token: " ++ msg))
      , tm := tm, requests := [req] }
    | .resp r =>
      if raiseForStatus r then
        { result := .error (.exception "Failed to get X-S-Common token: HTTPError")
        , tm := tm, requests := [req] }
      else
        match r.body.index "x_s_common" with
        | .error e => { result := .error e, tm := tm, requests := [req] }
        | .ok token =>
          if tm.cache_xs_common then
            match r.body.index "expires_at" with
            | .error e => { result := .error e, tm := tm, requests := [req] }
            | .ok expiry =>
              { result := .ok token
              , tm := { tm with xs_common_cache :=
                          pyInsert tm.xs_common_cache key ⟨token, expiry⟩ }
              , requests := [req] }
          else
            { result := .ok token, tm := tm, requests := [req] }

/-- `TokenManager.health_check`: one GET to `<server_url>/health`,
returning whether the status was 200; every exception is swallowed. -/
def TokenManager.health_check (tm : TokenManager) (outcome : HttpOutcome) :
    Bool × HttpRequest :=
  let req : HttpRequest :=
    { method := "GET", url := tm.server_url ++ "/health"
    , headers := tm.session_headers, cookies := [], body := Json.null }
  match outcome with
  | .netError _ => (false, req)
  | .resp r => (r.status == 200, req)

/-- `TokenManager.get_stats`: one GET to `<server_url>/api/v1/stats`;
request errors are wrapped into a generic `Exception`. -/
def TokenManager.get_stats (tm : TokenManager) (outcome : HttpOutcome) :
    Except PyError Json × HttpRequest :=
  let req : HttpRequest :=
    { method := "GET", url := tm.server_url ++ "/api/v1/stats"
    , headers := tm.session_headers, cookies := [], body := Json.null }
  match outcome with
  | .netError msg => (.error (.exception ("Failed to get stats: " ++ msg)), req)
  | .resp r =>
    if raiseForStatus r then (.error (.exception "Failed to get stats: HTTPError"), req)
    else (.ok r.body, req)

/-! ## BaseAPI (src/api/base.py) -/

/-- The cookies file as found on disk: absent, or parsed JSON in the
browser-export list format (list of `{"name": ..., "value": ...}`
records, modelled by name/value pairs) or in plain dict format. -/
inductive CookiesFile where
  | missing
  | listFormat (cookies : List (String × String))
  | dictFormat (cookies : List (String × String))

/-- The cookie dict a file denotes once loaded (for stating theorems
about non-missing files). -/
def CookiesFile.loaded : CookiesFile → List (String × String)
  | .missing => []
  | .listFormat cookies => pyDict cookies
  | .dictFormat cookies => pyDict cookies

/-- State of a successfully constructed `BaseAPI` client. -/
structure BaseAPIState where
  token_manager : TokenManager
  base_url : String
  cookies : List (String × String)
  a1 : String

/-- `BaseAPI._load_cookies`: `FileNotFoundError` when the file does
not exist, otherwise the parsed cookies converted to a dict (the list
format through a dict comprehension, later entries overwriting
earlier ones). -/
def BaseAPI.load_cookies (file : CookiesFile) : Except PyError (List (String × String)) :=
  match file with
  | .missing => .error .fileNotFoundError
  | .listFormat cookies => .ok (pyDict cookies)
  | .dictFormat cookies => .ok (pyDict cookies)

/-- `BaseAPI._extract_device_id`: `cookies.get('a1', '')`, raising
`ValueError` when the result is falsy. -/
def BaseAPI.extract_device_id (cookies : List (String × String)) : Except PyError String :=
  let a1 := (List.lookup "a1" cookies).getD ""
  if a1 = "" then .error .valueError else .ok a1

/-- `BaseAPI.__init__`: loads the cookies and extracts the device id,
propagating either error. -/
def BaseAPI.construct (tm : TokenManager) (file : CookiesFile) :
    Except PyError BaseAPIState := do
  let cookies ← BaseAPI.load_cookies file
  let a1 ← BaseAPI.extract_device_id cookies
  .ok { token_manager := tm, base_url := "https://edith.xiaohongshu.com"
      , cookies := cookies, a1 := a1 }

/-- `BaseAPI._build_headers`.  The `endpoint` argument is accepted and
ignored, as in the source. -/
def BaseAPI.build_headers (endpoint : String) (x_s : Json) (x_s_common : Json)
    (x_t : Json) : List (String × String) :=
  let _ := endpoint
  [ ("accept", "application/json, text/plain, */*")
  , ("accept-language", "en-US,en;q=0.9")
  , ("content-type", "application/json;charset=UTF-8")
  , ("origin", "https://www.xiaohongshu.com")
  , ("referer", "https://www.xiaohongshu.com/")
  , ("user-agent", "Mozilla/5.0 (Windows NT 10.0; Win64; x64) AppleWebKit/537.36 (KHTML, like Gecko) Chrome/130.0.0.0 Safari/537.36")
  , ("x-s", pyStr x_s)
  , ("x-s-common", pyStr x_s_common)
  , ("x-t", pyStr x_t) ]

/-- Result of `_make_request` (and of `fetch_comments`): the return
value or exception, the token-manager state afterwards, the requests
sent to the token server, and the requests sent to the platform. -/
structure APICallResult where
  result : Except PyError Json
  tm : TokenManager
  tokenRequests : List HttpRequest
  platformRequests : List HttpRequest

/-- `BaseAPI._make_request`: obtains the two tokens (propagating any
exception), then issues exactly one POST to `<base_url><endpoint>`
carrying the built headers, the full cookie dict and the JSON
payload; raises a generic `Exception` when the status is not 200 and
returns the parsed body otherwise. -/
def BaseAPI.make_request (st : BaseAPIState) (endpoint : String) (payload : Json)
    (xsOutcome xsCommonOutcome postOutcome : HttpOutcome) (now_ms : Int) :
    APICallResult :=
  let xsCall := st.token_manager.get_xs_token endpoint payload (some st.a1) none xsOutcome
  match xsCall.result with
  | .error e =>
    { result := .error e, tm := xsCall.tm, tokenRequests := xsCall.requests
    , platformRequests := [] }
  | .ok (x_s, x_t) =>
    let commonCall := xsCall.tm.get_xs_common_token (some st.a1) none now_ms xsCommonOutcome
    match commonCall.result with
    | .error e =>
      { result := .error e, tm := commonCall.tm
      , tokenRequests := xsCall.requests ++ commonCall.requests
      , platformRequests := [] }
    | .ok x_s_common =>
      let headers := BaseAPI.build_headers endpoint x_s x_s_common x_t
      let req : HttpRequest :=
        { method := "POST", url := st.base_url ++ endpoint, headers := headers
        , cookies := st.cookies, body := payload }
      let result : Except PyError Json :=
        match postOutcome with
        | .netError msg => .error (.exception msg)
        | .resp r =>
          if r.status ≠ 200 then
            .error (.exception ("API request failed: " ++ toString r.status))
          else .ok r.body
      { result := result, tm := commonCall.tm
      , tokenRequests := xsCall.requests ++ commonCall.requests
      , platformRequests := [req] }

/-! ## CommentsAPI.fetch_comments (src/api/comments.py) -/

/-- `urlencode` on the query parameters.  Percent-escaping of special
characters is not modelled (no claim concerns URL syntax); parameters
are joined as `k=v` pairs with `&`. -/
def urlencodeParams (params : List (String × String)) : String :=
  String.intercalate "&" (params.map (fun p => p.1 ++ "=" ++ p.2))

/-- The comments endpoint constant set in `CommentsAPI.__init__`. -/
def CommentsAPI.endpoint : String := "/api/sns/web/v2/comment/page"

/-- `CommentsAPI.fetch_comments`: builds the query string (with the
default image formats when none are given), obtains both tokens for
the endpoint-with-params and an empty payload, then issues exactly
one GET carrying the built headers and the full cookie dict; raises a
generic `Exception` when the status is not 200 and returns the parsed
body otherwise. -/
def CommentsAPI.fetch_comments (st : BaseAPIState) (note_id xsec_token : String)
    (cursor : String) (top_comment_id : String) (image_formats : Option (List String))
    (xsOutcome xsCommonOutcome getOutcome : HttpOutcome) (now_ms : Int) :
    APICallResult :=
  let formats := image_formats.getD ["jpg", "webp", "avif"]
  let params :=
    [ ("note_id", note_id), ("cursor", cursor), ("top_comment_id", top_comment_id)
    , ("image_formats", String.intercalate "," formats), ("xsec_token", xsec_token) ]
  let endpoint_with_params := CommentsAPI.endpoint ++ "?" ++ urlencodeParams params
  let xsCall := st.token_manager.get_xs_token endpoint_with_params (Json.obj [])
      (some st.a1) none xsOutcome
  match xsCall.result with
  | .error e =>
    { result := .error e, tm := xsCall.tm, tokenRequests := xsCall.requests
    , platformRequests := [] }
  | .ok (x_s, x_t) =>
    let commonCall := xsCall.tm.get_xs_common_token (some st.a1) none now_ms xsCommonOutcome
    match commonCall.result with
    | .error e =>
      { result := .error e, tm := commonCall.tm
      , tokenRequests := xsCall.requests ++ commonCall.requests
      , platformRequests := [] }
    | .ok x_s_common =>
      let headers := BaseAPI.build_headers CommentsAPI.endpoint x_s x_s_common x_t
      let req : HttpRequest :=
        { method := "GET", url := st.base_url ++ endpoint_with_params
        , headers := headers, cookies := st.cookies, body := Json.null }
      let result : Except PyError Json :=
        match getOutcome with
        | .netError msg => .error (.exception msg)
        | .resp r =>
          if r.status ≠ 200 then
            .error (.exception ("API request failed: " ++ toString r.status))
          else .ok r.body
      { result := result, tm := commonCall.tm
      , tokenRequests := xsCall.requests ++ commonCall.requests
      , platformRequests := [req] }

/-! ## Pagination helpers

Each `fetch_*` call is abstracted as consuming the next page from a
stream `serv : Nat → Page`, where `serv i` is the response to the
`i+1`-th request of the loop and the page record holds the fields the
loop reads out of the response (already extracted with the `.get`
defaults used in the source).  Each helper returns the accumulated
items together with the number of page requests issued. -/

/-- The fields `HomefeedAPI.get_posts` reads from a response:
`data.items`, `data.cursor_score` and `data.has_more` (the last is
present in responses but never read by this helper). -/
structure HomefeedPage where
  items : List Json
  cursor_score : String
  has_more : Bool

/-- The `for _ in range(pages)` loop of `HomefeedAPI.get_posts`:
stops when the page limit is reached, when a page has no items, or
when the response carries an empty `cursor_score`. -/
def HomefeedAPI.get_posts_loop (serv : Nat → HomefeedPage) :
    Nat → Nat → List Json → List Json × Nat
  | 0, _, acc => (acc, 0)
  | pagesLeft + 1, idx, acc =>
    match (serv idx).items with
    | [] => (acc, 1)
    | _ :: _ =>
      let acc2 := acc ++ (serv idx).items
      if (serv idx).cursor_score = "" then (acc2, 1)
      else
        let res := HomefeedAPI.get_posts_loop serv pagesLeft (idx + 1) acc2
        (res.1, res.2 + 1)

/-- `HomefeedAPI.get_posts`: runs the page loop from an empty
accumulator and returns all fetched posts (no truncation). -/
def HomefeedAPI.get_posts (serv : Nat → HomefeedPage) (num pages : Nat) :
    List Json × Nat :=
  let _ := num
  HomefeedAPI.get_posts_loop serv pages 0 []

/-- The fields `SearchAPI.search` reads from a response:
`data.items` and `data.has_more` (the search loop pages by page
number and reads no cursor). -/
structure SearchPage where
  items : List Json
  has_more : Bool

/-- The `while len(all_results) < num_results` loop of
`SearchAPI.search`: stops when enough results are accumulated, when a
page has no items, or when `has_more` is false. -/
def SearchAPI.search_loop (serv : Nat → SearchPage) (num_results : Nat)
    (idx : Nat) (acc : List Json) : List Json × Nat :=
  if h1 : acc.length < num_results then
    if h2 : (serv idx).items.isEmpty then (acc, 1)
    else
      let acc2 := acc ++ (serv idx).items
      if (serv idx).has_more then
        let res := SearchAPI.search_loop serv num_results (idx + 1) acc2
        (res.1, res.2 + 1)
      else (acc2, 1)
  else (acc, 0)
termination_by num_results - acc.length
decreasing_by
  simp only [List.length_append]
  have hpos : 0 < (serv idx).items.length := by
    cases hval : (serv idx).items with
    | nil => rw [hval] at h2; simp [List.isEmpty] at h2
    | cons a l => simp [hval]
  omega

/-- `SearchAPI.search`: runs the loop from an empty accumulator and
returns `all_results[:num_results]`. -/
def SearchAPI.search (serv : Nat → SearchPage) (num_results : Nat) :
    List Json × Nat :=
  let res := SearchAPI.search_loop serv num_results 0 []
  (res.1.take num_results, res.2)

/-- The fields `CommentsAPI.get_comments` reads from a response:
`data.comments`, `data.cursor` and `data.has_more`. -/
structure CommentsPage where
  comments : List Json
  cursor : String
  has_more : Bool

/-- The `while len(all_comments) < num_comments` loop of
`CommentsAPI.get_comments`: stops when enough comments are
accumulated, when a page has no comments, when the cursor is empty,
or when `has_more` is false. -/
def CommentsAPI.get_comments_loop (serv : Nat → CommentsPage) (num_comments : Nat)
    (idx : Nat) (acc : List Json) : List Json × Nat :=
  if h1 : acc.length < num_comments then
    if h2 : (serv idx).comments.isEmpty then (acc, 1)
    else
      let acc2 := acc ++ (serv idx).comments
      if (serv idx).cursor = "" then (acc2, 1)
      else if (serv idx).has_more then
        let res := CommentsAPI.get_comments_loop serv num_comments (idx + 1) acc2
        (res.1, res.2 + 1)
      else (acc2, 1)
  else (acc, 0)
termination_by num_comments - acc.length
decreasing_by
  simp only [List.length_append]
  have hpos : 0 < (serv idx).comments.length := by
    cases hval : (serv idx).comments with
    | nil => rw [hval] at h2; simp [List.isEmpty] at h2
    | cons a l => simp [hval]
  omega

/-- `CommentsAPI.get_comments`: runs the loop from an empty
accumulator and returns `all_comments[:num_comments]`. -/
def CommentsAPI.get_comments (serv : Nat → CommentsPage) (num_comments : Nat) :
    List Json × Nat :=
  let res := CommentsAPI.get_comments_loop serv num_comments 0 []
  (res.1.take num_comments, res.2)

/-- The fields `UserAPI.get_user_posts` reads from a response:
`data.notes`, `data.cursor` and `data.has_more`. -/
structure UserPostsPage where
  notes : List Json
  cursor : String
  has_more : Bool

/-- The `while len(all_posts) < num_posts` loop of
`UserAPI.get_user_posts`: stops when enough posts are accumulated,
when a page has no notes, when the cursor is empty, or when
`has_more` is false. -/
def UserAPI.get_user_posts_loop (serv : Nat → UserPostsPage) (num_posts : Nat)
    (idx : Nat) (acc : List Json) : List Json × Nat :=
  if h1 : acc.length < num_posts then
    if h2 : (serv idx).notes.isEmpty then (acc, 1)
    else
      let acc2 := acc ++ (serv idx).notes
      if (serv idx).cursor = "" then (acc2, 1)
      else if (serv idx).has_more then
        let res := UserAPI.get_user_posts_loop serv num_posts (idx + 1) acc2
        (res.1, res.2 + 1)
      else (acc2, 1)
  else (acc, 0)
termination_by num_posts - acc.length
decreasing_by
  simp only [List.length_append]
  have hpos : 0 < (serv idx).notes.length := by
    cases hval : (serv idx).notes with
    | nil => rw [hval] at h2; simp [List.isEmpty] at h2
    | cons a l => simp [hval]
  omega

/-- `UserAPI.get_user_posts`: runs the loop from an empty accumulator
and returns `all_posts[:num_posts]`. -/
def UserAPI.get_user_posts (serv : Nat → UserPostsPage) (num_posts : Nat) :
    List Json × Nat :=
  let res := UserAPI.get_user_posts_loop serv num_posts 0 []
  (res.1.take num_posts, res.2)

/-- The concatenation of the item lists of the `count` pages starting
at stream position `start` (`f i` being page `i`'s item list). -/
def pagesItems (f : Nat → List Json) (start count : Nat) : List Json :=
  ((List.range' start count).map f).flatten

/-! ## Reshaping functions -/

/-- The list comprehension
`[pic.get("url_default", "") for pic in pictures]`: fails on the
first element that is not a dict. -/
def getUrls : List Json → Except PyError (List Json)
  | [] => .ok []
  | pic :: rest => do
    let u ← pic.getD "url_default" (Json.str "")
    let us ← getUrls rest
    .ok (u :: us)

/-- `CommentsAPI.parse_comment`, evaluated in Python order: the
`user_info` extraction first, then the dict-literal entries from
`id` to `pictures`.  Iterating the `pictures` value follows Python
iteration (a list yields its elements, a string its characters, a
dict its keys; other scalars raise `TypeError`). -/
def CommentsAPI.parse_comment (comment : Json) : Except PyError (List (String × Json)) := do
  let user_info ← comment.getD "user_info" (Json.obj [])
  let idv ← comment.getD "id" Json.null
  let contentv ← comment.getD "content" Json.null
  let nickname ← user_info.getD "nickname" (Json.str "Anonymous")
  let user_id ← user_info.getD "user_id" Json.null
  let like_count ← comment.getD "like_count" (Json.num 0)
  let sub_comment_count ← comment.getD "sub_comment_count" (Json.num 0)
  let create_time ← comment.getD "create_time" Json.null
  let ip_location ← comment.getD "ip_location" (Json.str "")
  let picturesv ← comment.getD "pictures" (Json.arr [])
  let pics ←
    match picturesv with
    | Json.arr elems => Except.ok elems
    | Json.str s => Except.ok (s.data.map (fun c => Json.str (String.mk [c])))
    | Json.obj fields => Except.ok (fields.map (fun kv => Json.str kv.1))
    | _ => Except.error PyError.typeError
  let urls ← getUrls pics
  Except.ok
    [ ("id", idv), ("content", contentv), ("user_nickname", nickname)
    , ("user_id", user_id), ("like_count", like_count)
    , ("sub_comment_count", sub_comment_count), ("create_time", create_time)
    , ("ip_location", ip_location), ("pictures", Json.arr urls) ]

/-- The reshaping half of `UserAPI.get_user_profile`: maps the raw
`fetch_user_info` response to the thirteen-key profile record, in
Python dict-literal evaluation order. -/
def UserAPI.profile_of_response (response : Json) : Except PyError (List (String × Json)) := do
  let user_data ← response.getD "data" (Json.obj [])
  let user_id ← user_data.getD "user_id" Json.null
  let nickname ← user_data.getD "nickname" Json.null
  let descv ← user_data.getD "desc" (Json.str "")
  let gender ← user_data.getD "gender" (Json.num 0)
  let follows ← user_data.getD "follows" (Json.num 0)
  let fans ← user_data.getD "fans" (Json.num 0)
  let interaction ← user_data.getD "interaction" (Json.num 0)
  let notes ← user_data.getD "notes" (Json.num 0)
  let collected ← user_data.getD "collected" (Json.num 0)
  let image ← user_data.getD "image" (Json.str "")
  let levelv ← user_data.getD "level" (Json.obj [])
  let levelName ← levelv.getD "name" (Json.str "")
  let location ← user_data.getD "location" (Json.str "")
  let collegev ← user_data.getD "college" (Json.obj [])
  let collegeName ← collegev.getD "name" (Json.str "")
  Except.ok
    [ ("user_id", user_id), ("nickname", nickname), ("desc", descv)
    , ("gender", gender), ("follows", follows), ("fans", fans)
    , ("interaction", interaction), ("note_count", notes)
    , ("collected_count", collected), ("avatar", image), ("level", levelName)
    , ("location", location), ("college", collegeName) ]

/-! ## Python call binding

`XHSClient.get_comments` invokes `CommentsAPI.fetch_comments` with
keyword arguments that do not cover all required parameters, so the
call raises `TypeError` before the callee body (and hence before any
network activity).  Parameter binding is modelled explicitly. -/

/-- A parameter of a Python function: its name and whether it has a
default value. -/
structure PyParam where
  name : String
  hasDefault : Bool

/-- The parameter list of `CommentsAPI.fetch_comments` (after
`self`): `note_id` and `xsec_token` are required, the rest default. -/
def fetch_comments_params : List PyParam :=
  [ ⟨"note_id", false⟩, ⟨"xsec_token", false⟩, ⟨"cursor", true⟩
  , ⟨"top_comment_id", true⟩, ⟨"image_formats", true⟩ ]

/-- The required parameters left unbound by a keyword-argument call. -/
def missingRequired (params : List PyParam) (kwargs : List String) : List String :=
  (params.filter (fun p => !p.hasDefault && !(kwargs.contains p.name))).map PyParam.name

/-- Python call binding for a keyword-argument call: `TypeError` when
a required parameter is missing, otherwise the body may run. -/
def bindCall (params : List PyParam) (kwargs : List String) : Except PyError Unit :=
  match missingRequired params kwargs with
  | [] => .ok ()
  | _ :: _ => .error .typeError

/-! ## XHSClient (src/xhs_client.py) -/

/-- The logging-related state of an `XHSClient` instance: whether
logging was requested and whether the `logger` attribute exists
(`_setup_logging` is only called when `enable_logging` is true). -/
structure XHSClient where
  enable_logging : Bool
  logger : Option Unit

/-- The logging part of `XHSClient.__init__`: the `logger` attribute
is created exactly when `enable_logging` is true. -/
def XHSClient.construct (enable_logging : Bool) : XHSClient :=
  { enable_logging := enable_logging
  , logger := if enable_logging then some () else none }

/-- Accessing `self.logger`: `AttributeError` when the attribute was
never created. -/
def XHSClient.loggerAttr (c : XHSClient) : Except PyError Unit :=
  match c.logger with
  | some u => .ok u
  | none => .error .attributeError

/-- `XHSClient.get_homefeed`: logs (`self.logger.info`), then fetches
one homefeed page through `fetch_homefeed`, then logs the response.
Returns the result or the exception, and the number of platform
fetches performed. -/
def XHSClient.get_homefeed (c : XHSClient) (num : Nat) (cursor : String)
    (resp : Json) : Except PyError Json × Nat :=
  let _ := (num, cursor)
  match c.loggerAttr with
  | .error e => (.error e, 0)
  | .ok _ => (.ok resp, 1)

/-- `XHSClient.search`: logs, then fetches one search page through
`search_notes`, then logs the response. -/
def XHSClient.search (c : XHSClient) (keyword : String) (page : Nat)
    (resp : Json) : Except PyError Json × Nat :=
  let _ := (keyword, page)
  match c.loggerAttr with
  | .error e => (.error e, 0)
  | .ok _ => (.ok resp, 1)

/-- `XHSClient.get_comments`: logs, then calls
`self.comments_api.fetch_comments(note_id=note_id, cursor=cursor)` —
a call that never binds the required `xsec_token` parameter, so when
the logger exists the call raises `TypeError` without any fetch. -/
def XHSClient.get_comments (c : XHSClient) (note_id cursor : String) :
    Except PyError Json × Nat :=
  let _ := (note_id, cursor)
  match c.loggerAttr with
  | .error e => (.error e, 0)
  | .ok _ =>
    match bindCall fetch_comments_params ["note_id", "cursor"] with
    | .error e => (.error e, 0)
    | .ok _ => (.ok Json.null, 1)

/-- `XHSClient.get_related_posts`: logs, then fetches through
`feed_api.get_related_posts` (one `_make_request`), then logs. -/
def XHSClient.get_related_posts (c : XHSClient) (note_id : String) (num : Nat)
    (resp : Json) : Except PyError Json × Nat :=
  let _ := (note_id, num)
  match c.loggerAttr with
  | .error e => (.error e, 0)
  | .ok _ => (.ok resp, 1)

/-- `XHSClient.get_user_posts`: logs, then runs the
`UserAPI.get_user_posts` pagination loop, then logs. -/
def XHSClient.get_user_posts (c : XHSClient) (user_id : String) (num : Nat)
    (serv : Nat → UserPostsPage) : Except PyError (List Json) × Nat :=
  let _ := user_id
  match c.loggerAttr with
  | .error e => (.error e, 0)
  | .ok _ =>
    let res := UserAPI.get_user_posts serv num
    (.ok res.1, res.2)

/-- `XHSClient.get_user_profile`: logs, then fetches the user info
response and reshapes it with the `get_user_profile` record mapping,
then logs. -/
def XHSClient.get_user_profile (c : XHSClient) (user_id : String) (resp : Json) :
    Except PyError Json × Nat :=
  let _ := user_id
  match c.loggerAttr with
  | .error e => (.error e, 0)
  | .ok _ =>
    match UserAPI.profile_of_response resp with
    | .error e => (.error e, 1)
    | .ok fields => (.ok (Json.obj fields), 1)

/-- `XHSClient.browse_note`: reads `id` and `xsec_token` out of the
note item; when either is falsy returns the error dict, otherwise
calls `self.get_comments(note_id)` — which raises `TypeError` as
above even though the item carried an `xsec_token`. -/
def XHSClient.browse_note (c : XHSClient) (note_item : Json) :
    Except PyError Json × Nat :=
  match note_item.getD "id" Json.null with
  | .error e => (.error e, 0)
  | .ok note_id =>
    match note_item.getD "xsec_token" Json.null with
    | .error e => (.error e, 0)
    | .ok xsec_token =>
      if !note_id.truthy || !xsec_token.truthy then
        (.ok (Json.obj [("error", Json.str "Missing note_id or xsec_token")]), 0)
      else
        match c.get_comments (pyStr note_id) "" with
        | (.error e, n) => (.error e, n)
        | (.ok comments, n) =>
          (.ok (Json.obj [("note", note_item), ("comments", comments)]), n)

/-! ## Operation sequences over a TokenManager

For the invariant about the Authorization header, any sequence of
`TokenManager` operations is modelled as a list of operation
descriptors run against the state. -/

/-- One `TokenManager` operation together with the outcome of the
HTTP exchange it may perform. -/
inductive TMOp where
  | opGetXs (endpoint : String) (payload : Json) (a1 : Option String)
      (timestamp_ms : Option Int) (outcome : HttpOutcome)
  | opGetXsCommon (a1 : Option String) (fingerprint : Option Json)
      (now_ms : Int) (outcome : HttpOutcome)
  | opClearCache
  | opHealthCheck (outcome : HttpOutcome)
  | opGetStats (outcome : HttpOutcome)

/-- Run one operation: the state afterwards and the requests issued. -/
def TokenManager.step (tm : TokenManager) : TMOp → TokenManager × List HttpRequest
  | .opGetXs endpoint payload a1 timestamp_ms outcome =>
    let call := tm.get_xs_token endpoint payload a1 timestamp_ms outcome
    (call.tm, call.requests)
  | .opGetXsCommon a1 fingerprint now_ms outcome =>
    let call := tm.get_xs_common_token a1 fingerprint now_ms outcome
    (call.tm, call.requests)
  | .opClearCache => ({ tm with xs_common_cache := [] }, [])
  | .opHealthCheck outcome => (tm, [(tm.health_check outcome).2])
  | .opGetStats outcome => (tm, [(tm.get_stats outcome).2])

/-- Run a sequence of operations, collecting all requests issued. -/
def TokenManager.run (tm : TokenManager) : List TMOp → TokenManager × List HttpRequest
  | [] => (tm, [])
  | op :: ops =>
    let first := tm.step op
    let rest := first.1.run ops
    (rest.1, first.2 ++ rest.2)

/-! ## Well-typedness of reshaped responses, and the record shapes
stated by the specification -/

/-- Whether a JSON value is a dict. -/
def Json.isObjB : Json → Bool
  | .obj _ => true
  | _ => false

/-- The inputs on which `parse_comment` runs without a type error:
the comment is a dict whose `user_info` field (when present) is a
dict and whose `pictures` field (when present) is a list of dicts. -/
def commentWellTyped : Json → Bool
  | .obj fields =>
    (match List.lookup "user_info" fields with
     | none => true
     | some v => v.isObjB) &&
    (match List.lookup "pictures" fields with
     | none => true
     | some (Json.arr elems) => elems.all Json.isObjB
     | some _ => false)
  | _ => false

/-- The inputs on which the `get_user_profile` reshaping runs without
a type error: the response is a dict whose `data` field (when
present) is a dict whose `level` and `college` fields (when present)
are dicts. -/
def profileWellTyped : Json → Bool
  | .obj fields =>
    (match List.lookup "data" fields with
     | none => true
     | some (Json.obj dataFields) =>
       (match List.lookup "level" dataFields with
        | none => true
        | some v => v.isObjB) &&
       (match List.lookup "college" dataFields with
        | none => true
        | some v => v.isObjB)
     | some _ => false)
  | _ => false

/-- Total field access with a default: the value the spec describes
for "field X, defaulting to d" (never raising). -/
def specGet (j : Json) (k : String) (d : Json) : Json :=
  match j with
  | .obj fields => (List.lookup k fields).getD d
  | _ => d

/-- The comment record shape stated by the specification: exactly the
nine keys, with the stated defaults for missing fields. -/
def parse_comment_shape (comment : Json) : List (String × Json) :=
  let user_info := specGet comment "user_info" (Json.obj [])
  let pics :=
    match specGet comment "pictures" (Json.arr []) with
    | Json.arr elems => elems
    | _ => []
  [ ("id", specGet comment "id" Json.null)
  , ("content", specGet comment "content" Json.null)
  , ("user_nickname", specGet user_info "nickname" (Json.str "Anonymous"))
  , ("user_id", specGet user_info "user_id" Json.null)
  , ("like_count", specGet comment "like_count" (Json.num 0))
  , ("sub_comment_count", specGet comment "sub_comment_count" (Json.num 0))
  , ("create_time", specGet comment "create_time" Json.null)
  , ("ip_location", specGet comment "ip_location" (Json.str ""))
  , ("pictures", Json.arr (pics.map (fun pic => specGet pic "url_default" (Json.str "")))) ]

/-- The profile record shape stated by the specification: exactly the
thirteen keys, with the stated defaults for missing fields. -/
def profile_shape (response : Json) : List (String × Json) :=
  let user_data := specGet response "data" (Json.obj [])
  [ ("user_id", specGet user_data "user_id" Json.null)
  , ("nickname", specGet user_data "nickname" Json.null)
  , ("desc", specGet user_data "desc" (Json.str ""))
  , ("gender", specGet user_data "gender" (Json.num 0))
  , ("follows", specGet user_data "follows" (Json.num 0))
  , ("fans", specGet user_data "fans" (Json.num 0))
  , ("interaction", specGet user_data "interaction" (Json.num 0))
  , ("note_count", specGet user_data "notes" (Json.num 0))
  , ("collected_count", specGet user_data "collected" (Json.num 0))
  , ("avatar", specGet user_data "image" (Json.str ""))
  , ("level", specGet (specGet user_data "level" (Json.obj [])) "name" (Json.str ""))
  , ("location", specGet user_data "location" (Json.str ""))
  , ("college", specGet (specGet user_data "college" (Json.obj [])) "name" (Json.str "")) ]

/-! ## Concrete servers used in counterexamples and witnesses -/

/-- A homefeed server whose every page has one item, a non-empty
cursor, and `has_more` false. -/
def hfServerNoMore : Nat → HomefeedPage :=
  fun _ => { items := [Json.null], cursor_score := "c", has_more := false }

/-- A comments server whose first page holds two comments and already
reports `has_more` false. -/
def commentsServerTwo : Nat → CommentsPage :=
  fun _ => { comments := [Json.null, Json.null], cursor := "c", has_more := false }

/-- A comments server with one comment on the first page and an empty
second page. -/
def commentsServerOneThenEmpty : Nat → CommentsPage :=
  fun i =>
    if i = 0 then { comments := [Json.null], cursor := "c", has_more := true }
    else { comments := [], cursor := "", has_more := false }

/-! ## Helper lemmas -/

@[simp]
theorem getD_obj (fields : List (String × Json)) (k : String) (d : Json) :
    (Json.obj fields).getD k d = .ok ((List.lookup k fields).getD d) := rfl

@[simp]
theorem except_ok_bind {ε α β : Type} (a : α) (f : α → Except ε β) :
    (Except.ok a >>= f) = f a := rfl

@[simp]
theorem except_error_bind {ε α β : Type} (e : ε) (f : α → Except ε β) :
    ((Except.error e : Except ε α) >>= f) = Except.error e := rfl

/-- A successfully constructed `BaseAPI` client has the loaded
cookies, and a non-empty `a1` equal to the `a1` cookie value. -/
theorem construct_ok_inv (tm : TokenManager) (file : CookiesFile) (st : BaseAPIState) :
    BaseAPI.construct tm file = .ok st →
      st.a1 ≠ "" ∧ List.lookup "a1" st.cookies = some st.a1 ∧
      st.cookies = file.loaded ∧ st.token_manager = tm := by
  cases file with
  | missing => intro h; simp [BaseAPI.construct, BaseAPI.load_cookies] at h
  | listFormat cookies =>
    simp only [BaseAPI.construct, BaseAPI.load_cookies, except_ok_bind,
      BaseAPI.extract_device_id, CookiesFile.loaded]
    split
    · intro h; simp at h
    · rename_i hne
      intro h
      cases h
      refine ⟨hne, ?_, rfl, rfl⟩
      cases hl : List.lookup "a1" (pyDict cookies) with
      | none => rw [hl] at hne; simp at hne
      | some v => simp
  | dictFormat cookies =>
    simp only [BaseAPI.construct, BaseAPI.load_cookies, except_ok_bind,
      BaseAPI.extract_device_id, CookiesFile.loaded]
    split
    · intro h; simp at h
    · rename_i hne
      intro h
      cases h
      refine ⟨hne, ?_, rfl, rfl⟩
      cases hl : List.lookup "a1" (pyDict cookies) with
      | none => rw [hl] at hne; simp at hne
      | some v => simp

/-! ## Claim C9 -/

/-- C9: `BaseAPI.__init__` raises `FileNotFoundError` iff the cookie
file is missing, raises `ValueError` iff the loaded cookies have no
non-empty `a1` entry, and a successfully constructed client holds a
non-empty device id equal to the `a1` cookie value. -/
theorem base_api_construct_spec (tm : TokenManager) (file : CookiesFile) :
    (BaseAPI.construct tm file = .error .fileNotFoundError ↔ file = .missing)
    ∧ (BaseAPI.construct tm file = .error .valueError ↔
        file ≠ .missing ∧ (List.lookup "a1" file.loaded).getD "" = "")
    ∧ (∀ st, BaseAPI.construct tm file = .ok st →
        st.a1 ≠ "" ∧ List.lookup "a1" st.cookies = some st.a1) := by
  refine ⟨?_, ?_, fun st h => ⟨(construct_ok_inv tm file st h).1, (construct_ok_inv tm file st h).2.1⟩⟩
  · cases file with
    | missing => simp [BaseAPI.construct, BaseAPI.load_cookies]
    | listFormat cookies =>
      simp only [BaseAPI.construct, BaseAPI.load_cookies, except_ok_bind,
        BaseAPI.extract_device_id]
      constructor
      · intro h; split at h <;> simp_all
      · intro h; simp at h
    | dictFormat cookies =>
      simp only [BaseAPI.construct, BaseAPI.load_cookies, except_ok_bind,
        BaseAPI.extract_device_id]
      constructor
      · intro h; split at h <;> simp_all
      · intro h; simp at h
  · cases file with
    | missing => simp [BaseAPI.construct, BaseAPI.load_cookies]
    | listFormat cookies =>
      simp only [BaseAPI.construct, BaseAPI.load_cookies, except_ok_bind,
        BaseAPI.extract_device_id, CookiesFile.loaded]
      constructor
      · intro h
        split at h <;> simp_all
      · intro h
        rw [if_pos h.2]
        simp
    | dictFormat cookies =>
      simp only [BaseAPI.construct, BaseAPI.load_cookies, except_ok_bind,
        BaseAPI.extract_device_id, CookiesFile.loaded]
      constructor
      · intro h
        split at h <;> simp_all
      · intro h
        rw [if_pos h.2]
        simp

/-- Witness for C9 at a concrete cookie file containing `a1 = "X"`. -/
theorem base_api_construct_spec_witness :
    ("X" : String) ≠ "" ∧
    List.lookup "a1" (pyDict [("a1", "X")]) = some "X" :=
  (base_api_construct_spec (TokenManager.init "u" "k" true)
      (CookiesFile.dictFormat [("a1", "X")])).2.2
    { token_manager := TokenManager.init "u" "k" true
    , base_url := "https://edith.xiaohongshu.com"
    , cookies := pyDict [("a1", "X")], a1 := "X" } rfl

/-! ## Claim C8 -/

/-- C8: `XHSClient.get_comments` always calls
`CommentsAPI.fetch_comments` without the required `xsec_token`
argument, so (with the logger present) every call fails with a
missing-argument `TypeError` before any network request; the same
happens through `browse_note` even when the note item carries an
`xsec_token`. -/
theorem client_get_comments_missing_xsec (note_id cursor : String) :
    XHSClient.get_comments (XHSClient.construct true) note_id cursor
      = (.error .typeError, 0)
    ∧ missingRequired fetch_comments_params ["note_id", "cursor"] = ["xsec_token"]
    ∧ (∀ (item idv tok : Json),
        item.getD "id" Json.null = .ok idv →
        item.getD "xsec_token" Json.null = .ok tok →
        idv.truthy = true → tok.truthy = true →
        XHSClient.browse_note (XHSClient.construct true) item
          = (.error .typeError, 0)) := by
  refine ⟨rfl, rfl, ?_⟩
  intro item idv tok h1 h2 h3 h4
  simp only [XHSClient.browse_note, h1, h2, h3, h4]
  rfl

/-- Witness for C8: a note item that carries both `id` and
`xsec_token` still fails with the missing-argument `TypeError`. -/
theorem client_get_comments_missing_xsec_witness :
    XHSClient.browse_note (XHSClient.construct true)
        (Json.obj [("id", Json.str "n"), ("xsec_token", Json.str "t")])
      = (.error .typeError, 0) :=
  (client_get_comments_missing_xsec "n" "").2.2
    (Json.obj [("id", Json.str "n"), ("xsec_token", Json.str "t")])
    (Json.str "n") (Json.str "t") rfl rfl rfl rfl

/-! ## Claim C10 -/

/-- C10: with `enable_logging = False` the `logger` attribute is
never created, so each public API method that logs before fetching
(`get_homefeed`, `search`, `get_comments`, `get_related_posts`,
`get_user_posts`, `get_user_profile`) raises `AttributeError` on
every call, before any fetch; the logger access succeeds exactly
under `enable_logging = True`. -/
theorem logging_disabled_methods_fail :
    ((XHSClient.construct false).logger = none)
    ∧ ((XHSClient.construct true).logger = some ())
    ∧ ((XHSClient.construct false).loggerAttr = .error .attributeError)
    ∧ ((XHSClient.construct true).loggerAttr = .ok ())
    ∧ (∀ (num : Nat) (cursor : String) (resp : Json),
        (XHSClient.construct false).get_homefeed num cursor resp
          = (.error .attributeError, 0))
    ∧ (∀ (keyword : String) (page : Nat) (resp : Json),
        (XHSClient.construct false).search keyword page resp
          = (.error .attributeError, 0))
    ∧ (∀ (note_id cursor : String),
        (XHSClient.construct false).get_comments note_id cursor
          = (.error .attributeError, 0))
    ∧ (∀ (note_id : String) (num : Nat) (resp : Json),
        (XHSClient.construct false).get_related_posts note_id num resp
          = (.error .attributeError, 0))
    ∧ (∀ (user_id : String) (num : Nat) (serv : Nat → UserPostsPage),
        (XHSClient.construct false).get_user_posts user_id num serv
          = (.error .attributeError, 0))
    ∧ (∀ (user_id : String) (resp : Json),
        (XHSClient.construct false).get_user_profile user_id resp
          = (.error .attributeError, 0)) :=
  ⟨rfl, rfl, rfl, rfl, fun _ _ _ => rfl, fun _ _ _ => rfl, fun _ _ => rfl,
   fun _ _ _ => rfl, fun _ _ _ => rfl, fun _ _ => rfl⟩

/-! ## Claim C4 -/

/-- Value of the `a1` field of the xs-token request body. -/
theorem xsRequestBody_lookup_a1 (endpoint : String) (payload : Json)
    (a1 : Option String) (ts : Option Int) :
    List.lookup "a1" (TokenManager.xsRequestBody endpoint payload a1 ts)
      = (match a1 with
         | some s => if s ≠ "" then some (Json.str s) else none
         | none => none) := by
  cases a1 <;> cases ts <;>
    simp only [TokenManager.xsRequestBody] <;>
    (try split_ifs) <;>
    simp_all [List.lookup]

/-- Value of the `timestamp_ms` field of the xs-token request body. -/
theorem xsRequestBody_lookup_ts (endpoint : String) (payload : Json)
    (a1 : Option String) (ts : Option Int) :
    List.lookup "timestamp_ms" (TokenManager.xsRequestBody endpoint payload a1 ts)
      = (match ts with
         | some t => if t ≠ 0 then some (Json.num t) else none
         | none => none) := by
  cases a1 <;> cases ts <;>
    simp only [TokenManager.xsRequestBody] <;>
    (try split_ifs) <;>
    simp_all [List.lookup]

/-- The xs-token request body always carries the endpoint. -/
theorem xsRequestBody_lookup_endpoint (endpoint : String) (payload : Json)
    (a1 : Option String) (ts : Option Int) :
    List.lookup "endpoint" (TokenManager.xsRequestBody endpoint payload a1 ts)
      = some (Json.str endpoint) := by
  cases a1 <;> cases ts <;>
    simp only [TokenManager.xsRequestBody] <;>
    (try split_ifs) <;>
    simp_all [List.lookup]

/-- The xs-token request body always carries the payload. -/
theorem xsRequestBody_lookup_payload (endpoint : String) (payload : Json)
    (a1 : Option String) (ts : Option Int) :
    List.lookup "payload" (TokenManager.xsRequestBody endpoint payload a1 ts)
      = some payload := by
  cases a1 <;> cases ts <;>
    simp only [TokenManager.xsRequestBody] <;>
    (try split_ifs) <;>
    simp_all [List.lookup]

/-- C4: every `get_xs_token` call POSTs to
`<server_url>/api/v1/tokens/xs` with a body containing the endpoint
and the payload, containing `a1` only when a device id was provided,
containing `timestamp_ms` only when a timestamp was provided, and on
success returns the pair `(x_s, x_t)` from the response fields. -/
theorem get_xs_token_request_spec (tm : TokenManager) (endpoint : String)
    (payload : Json) (a1 : Option String) (ts : Option Int) (outcome : HttpOutcome) :
    ∃ req, (tm.get_xs_token endpoint payload a1 ts outcome).requests = [req]
      ∧ req.method = "POST"
      ∧ req.url = tm.server_url ++ "/api/v1/tokens/xs"
      ∧ req.body = Json.obj (TokenManager.xsRequestBody endpoint payload a1 ts)
      ∧ List.lookup "endpoint" (TokenManager.xsRequestBody endpoint payload a1 ts)
          = some (Json.str endpoint)
      ∧ List.lookup "payload" (TokenManager.xsRequestBody endpoint payload a1 ts)
          = some payload
      ∧ (a1 = none →
          List.lookup "a1" (TokenManager.xsRequestBody endpoint payload a1 ts) = none)
      ∧ (∀ v, List.lookup "a1" (TokenManager.xsRequestBody endpoint payload a1 ts)
            = some v → ∃ s, a1 = some s ∧ v = Json.str s)
      ∧ (ts = none →
          List.lookup "timestamp_ms" (TokenManager.xsRequestBody endpoint payload a1 ts)
            = none)
      ∧ (∀ v, List.lookup "timestamp_ms"
            (TokenManager.xsRequestBody endpoint payload a1 ts) = some v →
            ∃ t, ts = some t ∧ v = Json.num t)
      ∧ (∀ r, outcome = .resp r → raiseForStatus r = false →
          ∀ xs xt, r.body.index "x_s" = .ok xs → r.body.index "x_t" = .ok xt →
            (tm.get_xs_token endpoint payload a1 ts outcome).result = .ok (xs, xt)) := by
  refine ⟨_, rfl, rfl, rfl, rfl,
    xsRequestBody_lookup_endpoint endpoint payload a1 ts,
    xsRequestBody_lookup_payload endpoint payload a1 ts, ?_, ?_, ?_, ?_, ?_⟩
  · intro h; subst h; simp [xsRequestBody_lookup_a1]
  · intro v hv
    rw [xsRequestBody_lookup_a1] at hv
    cases a1 with
    | none => simp at hv
    | some s =>
      by_cases hs : s = "" <;> simp [hs] at hv
      exact ⟨s, rfl, hv.symm⟩
  · intro h; subst h; simp [xsRequestBody_lookup_ts]
  · intro v hv
    rw [xsRequestBody_lookup_ts] at hv
    cases ts with
    | none => simp at hv
    | some t =>
      by_cases ht : t = 0 <;> simp [ht] at hv
      exact ⟨t, rfl, hv.symm⟩
  · intro r hr hstatus xs xt hxs hxt
    subst hr
    simp [TokenManager.get_xs_token, hstatus, hxs, hxt]

/-- Witness for C4 at a concrete successful exchange. -/
theorem get_xs_token_request_spec_witness :
    (TokenManager.init "http://s" "k" true |>.get_xs_token "/e" Json.null none none
        (.resp { status := 200
               , body := Json.obj [("x_s", Json.str "S"), ("x_t", Json.num 5)] })).result
      = .ok (Json.str "S", Json.num 5) := by
  obtain ⟨req, _, _, _, _, _, _, _, _, _, _, hres⟩ :=
    get_xs_token_request_spec (TokenManager.init "http://s" "k" true) "/e" Json.null
      none none
      (.resp { status := 200
             , body := Json.obj [("x_s", Json.str "S"), ("x_t", Json.num 5)] })
  exact hres _ rfl rfl _ _ rfl rfl

/-! ## Claims C2 and C3: helper lemmas -/

/-- When the cache probe misses, `get_xs_common_token` issues exactly
one request; error outcomes raise the generic wrapped exception; a
good response returns the token and updates the cache exactly when
caching is enabled; with caching disabled the state is untouched. -/
theorem get_xs_common_probe_miss_spec (tm : TokenManager) (a1 : Option String)
    (fp : Option Json) (now : Int) (outcome : HttpOutcome)
    (h : tm.cacheProbe (TokenManager.cacheKey a1 fp) now = .ok none) :
    (tm.get_xs_common_token a1 fp now outcome).requests.length = 1
    ∧ (∀ m, outcome = .netError m →
        (tm.get_xs_common_token a1 fp now outcome).result
          = .error (.exception ("Failed to get X-S-Common token: " ++ m)))
    ∧ (∀ r, outcome = .resp r → raiseForStatus r = true →
        (tm.get_xs_common_token a1 fp now outcome).result
          = .error (.exception "Failed to get X-S-Common token: HTTPError"))
    ∧ (∀ status body token expiry,
        outcome = .resp { status := status, body := body } → status < 400 →
        body.index "x_s_common" = .ok token →
        body.index "expires_at" = .ok expiry →
        (tm.get_xs_common_token a1 fp now outcome).result = .ok token
        ∧ (tm.get_xs_common_token a1 fp now outcome).tm.xs_common_cache
            = (if tm.cache_xs_common then
                 pyInsert tm.xs_common_cache (TokenManager.cacheKey a1 fp)
                   { token := token, expires_at := expiry }
               else tm.xs_common_cache))
    ∧ (tm.cache_xs_common = false →
        (tm.get_xs_common_token a1 fp now outcome).tm = tm) := by
  refine ⟨?_, ?_, ?_, ?_, ?_⟩
  · simp only [TokenManager.get_xs_common_token, h]
    cases outcome with
    | netError m => rfl
    | resp r =>
      by_cases hrs : raiseForStatus r
      · simp [hrs]
      · simp only [hrs, Bool.false_eq_true, if_false]
        cases hidx : r.body.index "x_s_common" with
        | error e => rfl
        | ok token =>
          by_cases hc : tm.cache_xs_common
          · simp only [hc, if_true]
            cases r.body.index "expires_at" <;> rfl
          · simp [hc]
  · intro m hm
    subst hm
    simp [TokenManager.get_xs_common_token, h]
  · intro r hr hraise
    subst hr
    simp [TokenManager.get_xs_common_token, h, hraise]
  · intro status body token expiry ho hstatus htok hexp
    subst ho
    have hraise : raiseForStatus { status := status, body := body } = false := by
      simp [raiseForStatus]; omega
    by_cases hc : tm.cache_xs_common <;>
      simp [TokenManager.get_xs_common_token, h, hraise, htok, hexp, hc]
  · intro hc
    simp only [TokenManager.get_xs_common_token, h]
    cases outcome with
    | netError m => rfl
    | resp r =>
      by_cases hrs : raiseForStatus r
      · simp [hrs]
      · simp only [hrs, Bool.false_eq_true, if_false]
        cases r.body.index "x_s_common" with
        | error e => rfl
        | ok token => simp [hc]

/-- `get_xs_common_token` never issues more than one request. -/
theorem get_xs_common_token_requests_le_one (tm : TokenManager) (a1 : Option String)
    (fp : Option Json) (now : Int) (outcome : HttpOutcome) :
    (tm.get_xs_common_token a1 fp now outcome).requests.length ≤ 1 := by
  simp only [TokenManager.get_xs_common_token]
  cases hp : tm.cacheProbe (TokenManager.cacheKey a1 fp) now with
  | error e => simp
  | ok hit =>
    cases hit with
    | none =>
      cases outcome with
      | netError m => simp
      | resp r =>
        by_cases hrs : raiseForStatus r
        · simp [hrs]
        · simp only [hrs, Bool.false_eq_true, if_false]
          cases r.body.index "x_s_common" with
          | error e => simp
          | ok token =>
            by_cases hc : tm.cache_xs_common
            · simp only [hc, if_true]
              cases r.body.index "expires_at" <;> simp
            · simp [hc]
    | some tok => simp

/-! ## Claim C2 -/

/-- C2: `get_xs_common_token` returns a locally cached token exactly
when caching is enabled and the cache entry's expiry is strictly
greater than the current time in milliseconds; when the entry is
absent, expired, or caching is disabled it issues a server request,
and stores the fresh token with the server's expiry exactly when
caching is enabled. -/
theorem get_xs_common_token_cache_spec (tm : TokenManager) (a1 : Option String)
    (fp : Option Json) (now : Int) (outcome : HttpOutcome) :
    (∀ e n, tm.cache_xs_common = true →
      List.lookup (TokenManager.cacheKey a1 fp) tm.xs_common_cache = some e →
      e.expires_at = Json.num n → now < n →
      (tm.get_xs_common_token a1 fp now outcome).result = .ok e.token
      ∧ (tm.get_xs_common_token a1 fp now outcome).requests = []
      ∧ (tm.get_xs_common_token a1 fp now outcome).tm = tm)
    ∧ (tm.cache_xs_common = true →
      List.lookup (TokenManager.cacheKey a1 fp) tm.xs_common_cache = none →
      (tm.get_xs_common_token a1 fp now outcome).requests.length = 1)
    ∧ (∀ e n, tm.cache_xs_common = true →
      List.lookup (TokenManager.cacheKey a1 fp) tm.xs_common_cache = some e →
      e.expires_at = Json.num n → n ≤ now →
      (tm.get_xs_common_token a1 fp now outcome).requests.length = 1)
    ∧ (tm.cache_xs_common = false →
      (tm.get_xs_common_token a1 fp now outcome).requests.length = 1
      ∧ (tm.get_xs_common_token a1 fp now outcome).tm = tm)
    ∧ (∀ status body token expiry,
      tm.cacheProbe (TokenManager.cacheKey a1 fp) now = .ok none →
      outcome = .resp { status := status, body := body } → status < 400 →
      body.index "x_s_common" = .ok token →
      body.index "expires_at" = .ok expiry →
      (tm.get_xs_common_token a1 fp now outcome).result = .ok token
      ∧ (tm.get_xs_common_token a1 fp now outcome).tm.xs_common_cache
          = (if tm.cache_xs_common then
               pyInsert tm.xs_common_cache (TokenManager.cacheKey a1 fp)
                 { token := token, expires_at := expiry }
             else tm.xs_common_cache)) := by
  refine ⟨?_, ?_, ?_, ?_, ?_⟩
  · intro e n hc hl he hn
    have hprobe : tm.cacheProbe (TokenManager.cacheKey a1 fp) now = .ok (some e.token) := by
      simp [TokenManager.cacheProbe, hc, hl, he, hn]
    simp [TokenManager.get_xs_common_token, hprobe]
  · intro hc hl
    have hprobe : tm.cacheProbe (TokenManager.cacheKey a1 fp) now = .ok none := by
      simp [TokenManager.cacheProbe, hc, hl]
    exact (get_xs_common_probe_miss_spec tm a1 fp now outcome hprobe).1
  · intro e n hc hl he hn
    have hprobe : tm.cacheProbe (TokenManager.cacheKey a1 fp) now = .ok none := by
      simp [TokenManager.cacheProbe, hc, hl, he]
      omega
    exact (get_xs_common_probe_miss_spec tm a1 fp now outcome hprobe).1
  · intro hc
    have hprobe : tm.cacheProbe (TokenManager.cacheKey a1 fp) now = .ok none := by
      simp [TokenManager.cacheProbe, hc]
    exact ⟨(get_xs_common_probe_miss_spec tm a1 fp now outcome hprobe).1,
      (get_xs_common_probe_miss_spec tm a1 fp now outcome hprobe).2.2.2.2 hc⟩
  · intro status body token expiry hprobe ho hstatus htok hexp
    exact (get_xs_common_probe_miss_spec tm a1 fp now outcome hprobe).2.2.2.1
      status body token expiry ho hstatus htok hexp

/-- Witness for C2: a fresh cache entry is returned without any
request; and on a cache miss the fresh token is stored with the
server's expiry. -/
theorem get_xs_common_token_cache_spec_witness :
    (TokenManager.mk "u" "k" true
        [(("dev", Json.obj []), { token := Json.str "tok", expires_at := Json.num 100 })]
        [] |>.get_xs_common_token (some "dev") none 50
          (.netError "down")).result = .ok (Json.str "tok")
    ∧ (TokenManager.mk "u" "k" true [] []
        |>.get_xs_common_token (some "dev") none 50
          (.resp { status := 200
                 , body := Json.obj [("x_s_common", Json.str "fresh")
                                    , ("expires_at", Json.num 999)] })).tm.xs_common_cache
        = [(("dev", Json.obj [])
           , { token := Json.str "fresh", expires_at := Json.num 999 })] := by
  constructor
  · exact ((get_xs_common_token_cache_spec
      (TokenManager.mk "u" "k" true
        [(("dev", Json.obj []), { token := Json.str "tok", expires_at := Json.num 100 })] [])
      (some "dev") none 50 (.netError "down")).1
      { token := Json.str "tok", expires_at := Json.num 100 } 100 rfl rfl rfl
      (by norm_num)).1
  · have h := ((get_xs_common_token_cache_spec
      (TokenManager.mk "u" "k" true [] [])
      (some "dev") none 50
      (.resp { status := 200
             , body := Json.obj [("x_s_common", Json.str "fresh")
                                , ("expires_at", Json.num 999)] })).2.2.2.2
      200 (Json.obj [("x_s_common", Json.str "fresh"), ("expires_at", Json.num 999)])
      (Json.str "fresh") (Json.num 999) rfl rfl (by norm_num) rfl rfl).2
    simpa using h

/-! ## _make_request characterization -/

/-- `_make_request` either propagates a token-acquisition exception
with no platform request, or issues exactly one platform POST built
from the two tokens, carrying the full cookie dict, whose status
decides between the generic exception and the parsed body. -/
theorem make_request_platform (st : BaseAPIState) (endpoint : String) (payload : Json)
    (o1 o2 o3 : HttpOutcome) (now : Int) :
    ((BaseAPI.make_request st endpoint payload o1 o2 o3 now).platformRequests = []
      ∧ ∃ e, (BaseAPI.make_request st endpoint payload o1 o2 o3 now).result = .error e)
    ∨ ∃ x_s x_t x_s_common,
        (BaseAPI.make_request st endpoint payload o1 o2 o3 now).platformRequests
          = [{ method := "POST", url := st.base_url ++ endpoint
             , headers := BaseAPI.build_headers endpoint x_s x_s_common x_t
             , cookies := st.cookies, body := payload }]
        ∧ (∀ r, o3 = .resp r →
            (r.status ≠ 200 →
              (BaseAPI.make_request st endpoint payload o1 o2 o3 now).result
                = .error (.exception ("API request failed: " ++ toString r.status)))
            ∧ (r.status = 200 →
              (BaseAPI.make_request st endpoint payload o1 o2 o3 now).result
                = .ok r.body))
        ∧ (∀ m, o3 = .netError m →
            (BaseAPI.make_request st endpoint payload o1 o2 o3 now).result
              = .error (.exception m)) := by
  simp only [BaseAPI.make_request]
  cases hxs : (st.token_manager.get_xs_token endpoint payload (some st.a1) none o1).result with
  | error e => exact Or.inl ⟨rfl, e, rfl⟩
  | ok pair =>
    obtain ⟨x_s, x_t⟩ := pair
    cases hcom : ((st.token_manager.get_xs_token endpoint payload (some st.a1) none o1).tm.get_xs_common_token
        (some st.a1) none now o2).result with
    | error e => exact Or.inl ⟨rfl, e, rfl⟩
    | ok x_s_common =>
      refine Or.inr ⟨x_s, x_t, x_s_common, rfl, ?_, ?_⟩
      · intro r hr
        subst hr
        constructor
        · intro hne; simp [hne]
        · intro he; simp [he]
      · intro m hm
        subst hm
        rfl

/-- `_make_request` issues at most one request to each token-server
endpoint and at most one platform request. -/
theorem make_request_attempt_counts (st : BaseAPIState) (endpoint : String)
    (payload : Json) (o1 o2 o3 : HttpOutcome) (now : Int) :
    (BaseAPI.make_request st endpoint payload o1 o2 o3 now).platformRequests.length ≤ 1
    ∧ (BaseAPI.make_request st endpoint payload o1 o2 o3 now).tokenRequests.length ≤ 2 := by
  have hcle := get_xs_common_token_requests_le_one
    st.token_manager (some st.a1) none now o2
  simp only [BaseAPI.make_request]
  cases hxs : (st.token_manager.get_xs_token endpoint payload (some st.a1) none o1).result with
  | error e => simp [TokenManager.get_xs_token]
  | ok pair =>
    obtain ⟨x_s, x_t⟩ := pair
    cases hcom : ((st.token_manager.get_xs_token endpoint payload (some st.a1) none o1).tm.get_xs_common_token
        (some st.a1) none now o2).result with
    | error e =>
      simp only [List.length_append]
      simp [TokenManager.get_xs_token]
      omega
    | ok x_s_common =>
      simp only [List.length_append]
      simp [TokenManager.get_xs_token]
      omega

/-! ## Claim C3 -/

/-- C3: on any request failure `get_xs_token`, `get_xs_common_token`
and `_make_request` raise a generic exception after exactly one HTTP
attempt, with no retry; `_make_request` raises exactly when the
platform status is not 200 and returns the parsed body otherwise. -/
theorem single_attempt_error_spec :
    (∀ (tm : TokenManager) (endpoint : String) (payload : Json) (a1 : Option String)
        (ts : Option Int) (outcome : HttpOutcome),
      (tm.get_xs_token endpoint payload a1 ts outcome).requests.length = 1
      ∧ (∀ m, outcome = .netError m →
          (tm.get_xs_token endpoint payload a1 ts outcome).result
            = .error (.exception ("Failed to get X-S token: " ++ m)))
      ∧ (∀ r, outcome = .resp r → raiseForStatus r = true →
          (tm.get_xs_token endpoint payload a1 ts outcome).result
            = .error (.exception "Failed to get X-S token: HTTPError")))
    ∧ (∀ (tm : TokenManager) (a1 : Option String) (fp : Option Json) (now : Int)
        (outcome : HttpOutcome),
      (tm.get_xs_common_token a1 fp now outcome).requests.length ≤ 1
      ∧ (tm.cacheProbe (TokenManager.cacheKey a1 fp) now = .ok none →
          (tm.get_xs_common_token a1 fp now outcome).requests.length = 1
          ∧ (∀ m, outcome = .netError m →
              (tm.get_xs_common_token a1 fp now outcome).result
                = .error (.exception ("Failed to get X-S-Common token: " ++ m)))
          ∧ (∀ r, outcome = .resp r → raiseForStatus r = true →
              (tm.get_xs_common_token a1 fp now outcome).result
                = .error (.exception "Failed to get X-S-Common token: HTTPError"))))
    ∧ (∀ (st : BaseAPIState) (endpoint : String) (payload : Json)
        (o1 o2 o3 : HttpOutcome) (now : Int),
      (BaseAPI.make_request st endpoint payload o1 o2 o3 now).platformRequests.length ≤ 1
      ∧ (BaseAPI.make_request st endpoint payload o1 o2 o3 now).tokenRequests.length ≤ 2
      ∧ (∀ r, o3 = .resp r →
          (BaseAPI.make_request st endpoint payload o1 o2 o3 now).platformRequests ≠ [] →
          (r.status ≠ 200 →
            (BaseAPI.make_request st endpoint payload o1 o2 o3 now).result
              = .error (.exception ("API request failed: " ++ toString r.status)))
          ∧ (r.status = 200 →
            (BaseAPI.make_request st endpoint payload o1 o2 o3 now).result
              = .ok r.body))) := by
  refine ⟨?_, ?_, ?_⟩
  · intro tm endpoint payload a1 ts outcome
    refine ⟨rfl, ?_, ?_⟩
    · intro m hm; subst hm; rfl
    · intro r hr hraise; subst hr
      simp [TokenManager.get_xs_token, hraise]
  · intro tm a1 fp now outcome
    refine ⟨get_xs_common_token_requests_le_one tm a1 fp now outcome, ?_⟩
    intro hprobe
    exact ⟨(get_xs_common_probe_miss_spec tm a1 fp now outcome hprobe).1,
      (get_xs_common_probe_miss_spec tm a1 fp now outcome hprobe).2.1,
      (get_xs_common_probe_miss_spec tm a1 fp now outcome hprobe).2.2.1⟩
  · intro st endpoint payload o1 o2 o3 now
    refine ⟨(make_request_attempt_counts st endpoint payload o1 o2 o3 now).1,
      (make_request_attempt_counts st endpoint payload o1 o2 o3 now).2, ?_⟩
    intro r hr hne
    rcases make_request_platform st endpoint payload o1 o2 o3 now with ⟨hempty, _⟩ | ⟨x_s, x_t, x_s_common, hreq, hresp, _⟩
    · exact absurd hempty hne
    · exact hresp r hr

/-- Witness for C3: a concrete 500 from the platform raises the
generic exception after the single POST. -/
theorem single_attempt_error_spec_witness :
    (BaseAPI.make_request
        { token_manager := TokenManager.init "u" "k" true
        , base_url := "https://edith.xiaohongshu.com"
        , cookies := [("a1", "X")], a1 := "X" }
        "/api/sns/web/v1/homefeed" Json.null
        (.resp { status := 200, body := Json.obj [("x_s", Json.str "S"), ("x_t", Json.num 1)] })
        (.resp { status := 200
               , body := Json.obj [("x_s_common", Json.str "C"), ("expires_at", Json.num 9)] })
        (.resp { status := 500, body := Json.null }) 0).result
      = .error (.exception ("API request failed: " ++ toString 500)) := by
  have h := (single_attempt_error_spec.2.2
      { token_manager := TokenManager.init "u" "k" true
      , base_url := "https://edith.xiaohongshu.com"
      , cookies := [("a1", "X")], a1 := "X" }
      "/api/sns/web/v1/homefeed" Json.null
      (.resp { status := 200, body := Json.obj [("x_s", Json.str "S"), ("x_t", Json.num 1)] })
      (.resp { status := 200
             , body := Json.obj [("x_s_common", Json.str "C"), ("expires_at", Json.num 9)] })
      (.resp { status := 500, body := Json.null }) 0).2.2
      { status := 500, body := Json.null } rfl (by
        intro hcontra
        have hlen : (BaseAPI.make_request
            { token_manager := TokenManager.init "u" "k" true
            , base_url := "https://edith.xiaohongshu.com"
            , cookies := [("a1", "X")], a1 := "X" }
            "/api/sns/web/v1/homefeed" Json.null
            (.resp { status := 200
                   , body := Json.obj [("x_s", Json.str "S"), ("x_t", Json.num 1)] })
            (.resp { status := 200
                   , body := Json.obj [("x_s_common", Json.str "C")
                                      , ("expires_at", Json.num 9)] })
            (.resp { status := 500, body := Json.null }) 0).platformRequests.length = 1 := rfl
        rw [hcontra] at hlen
        simp at hlen)
  exact h.1 (by decide)

/-! ## Claim C6 -/

/-- `get_xs_common_token` never changes the session headers, and
every request it issues carries them. -/
theorem get_xs_common_token_headers (tm : TokenManager) (a1 : Option String)
    (fp : Option Json) (now : Int) (outcome : HttpOutcome) :
    (tm.get_xs_common_token a1 fp now outcome).tm.session_headers = tm.session_headers
    ∧ ∀ req ∈ (tm.get_xs_common_token a1 fp now outcome).requests,
        req.headers = tm.session_headers := by
  simp only [TokenManager.get_xs_common_token]
  cases hp : tm.cacheProbe (TokenManager.cacheKey a1 fp) now with
  | error e => simp
  | ok hit =>
    cases hit with
    | some tok => simp
    | none =>
      cases outcome with
      | netError m => simp
      | resp r =>
        by_cases hrs : raiseForStatus r
        · simp [hrs]
        · simp only [hrs, Bool.false_eq_true, if_false]
          cases r.body.index "x_s_common" with
          | error e => simp
          | ok token =>
            by_cases hc : tm.cache_xs_common
            · simp only [hc, if_true]
              cases r.body.index "expires_at" <;> simp
            · simp [hc]

/-- One `TokenManager` operation preserves the session headers and
only issues requests carrying them. -/
theorem step_headers (tm : TokenManager) (op : TMOp) :
    (tm.step op).1.session_headers = tm.session_headers
    ∧ ∀ req ∈ (tm.step op).2, req.headers = tm.session_headers := by
  cases op with
  | opGetXs endpoint payload a1 ts outcome =>
    simp [TokenManager.step, TokenManager.get_xs_token]
  | opGetXsCommon a1 fp now outcome =>
    exact get_xs_common_token_headers tm a1 fp now outcome
  | opClearCache => simp [TokenManager.step]
  | opHealthCheck outcome =>
    cases outcome <;> simp [TokenManager.step, TokenManager.health_check]
  | opGetStats outcome =>
    cases outcome with
    | netError m => simp [TokenManager.step, TokenManager.get_stats]
    | resp r =>
      by_cases hrs : raiseForStatus r <;>
        simp [TokenManager.step, TokenManager.get_stats, hrs]

/-- Any sequence of operations preserves the session headers, and
every request issued along the way carries the initial headers. -/
theorem run_headers (ops : List TMOp) (tm : TokenManager) :
    (tm.run ops).1.session_headers = tm.session_headers
    ∧ ∀ req ∈ (tm.run ops).2, req.headers = tm.session_headers := by
  induction ops generalizing tm with
  | nil => simp [TokenManager.run]
  | cons op ops ih =>
    simp only [TokenManager.run]
    have hstep := step_headers tm op
    have hrest := ih (tm.step op).1
    refine ⟨hrest.1.trans hstep.1, ?_⟩
    intro req hreq
    rw [List.mem_append] at hreq
    cases hreq with
    | inl h => exact hstep.2 req h
    | inr h => exact (hrest.2 req h).trans hstep.1

/-- C6: every request any sequence of `TokenManager` operations sends
to the token service carries `Authorization: Bearer <api_key>` with
the key given at construction, and no operation removes or alters the
session headers. -/
theorem bearer_header_invariant (server_url api_key : String) (cache : Bool)
    (ops : List TMOp) :
    ((TokenManager.init server_url api_key cache).run ops).1.session_headers
      = [("Authorization", "Bearer " ++ api_key), ("Content-Type", "application/json")]
    ∧ ∀ req ∈ ((TokenManager.init server_url api_key cache).run ops).2,
        ("Authorization", "Bearer " ++ api_key) ∈ req.headers := by
  have h := run_headers ops (TokenManager.init server_url api_key cache)
  refine ⟨h.1, fun req hreq => ?_⟩
  rw [h.2 req hreq]
  simp [TokenManager.init]

/-- Witness for C6: the request of a concrete `health_check` carries
the bearer header. -/
theorem bearer_header_invariant_witness :
    ("Authorization", "Bearer " ++ "k")
      ∈ (((TokenManager.init "u" "k" true).run
            [TMOp.opHealthCheck (.netError "down")]).2.get
          ⟨0, by simp [TokenManager.run, TokenManager.step]⟩).headers :=
  (bearer_header_invariant "u" "k" true [TMOp.opHealthCheck (.netError "down")]).2
    _ (List.get_mem _ _ _)

/-! ## Claim C5 -/

/-- `fetch_comments` either propagates a token exception with no
platform request, or issues exactly one GET built from the two
tokens, carrying the full cookie dict. -/
theorem fetch_comments_platform (st : BaseAPIState) (note_id xsec_token cursor top : String)
    (fmts : Option (List String)) (o1 o2 o3 : HttpOutcome) (now : Int) :
    (CommentsAPI.fetch_comments st note_id xsec_token cursor top fmts o1 o2 o3 now).platformRequests = []
    ∨ ∃ x_s x_t x_s_common u,
        (CommentsAPI.fetch_comments st note_id xsec_token cursor top fmts o1 o2 o3 now).platformRequests
          = [{ method := "GET", url := u
             , headers := BaseAPI.build_headers CommentsAPI.endpoint x_s x_s_common x_t
             , cookies := st.cookies, body := Json.null }] := by
  simp only [CommentsAPI.fetch_comments]
  cases hxs : (st.token_manager.get_xs_token
      (CommentsAPI.endpoint ++ "?" ++ urlencodeParams
        [ ("note_id", note_id), ("cursor", cursor), ("top_comment_id", top)
        , ("image_formats", String.intercalate "," (fmts.getD ["jpg", "webp", "avif"]))
        , ("xsec_token", xsec_token) ])
      (Json.obj []) (some st.a1) none o1).result with
  | error e => exact Or.inl rfl
  | ok pair =>
    obtain ⟨x_s, x_t⟩ := pair
    cases hcom : ((st.token_manager.get_xs_token
        (CommentsAPI.endpoint ++ "?" ++ urlencodeParams
          [ ("note_id", note_id), ("cursor", cursor), ("top_comment_id", top)
          , ("image_formats", String.intercalate "," (fmts.getD ["jpg", "webp", "avif"]))
          , ("xsec_token", xsec_token) ])
        (Json.obj []) (some st.a1) none o1).tm.get_xs_common_token
        (some st.a1) none now o2).result with
    | error e => exact Or.inl rfl
    | ok x_s_common =>
      exact Or.inr ⟨x_s, x_t, x_s_common, _, rfl⟩

/-- C5: for a successfully constructed client, every request sent to
the platform (the POSTs of `_make_request` and the GET of
`fetch_comments`) carries the `x-s`, `x-s-common` and `x-t` headers
and the full loaded cookie set, which includes the non-empty device
identifier `a1`. -/
theorem platform_requests_carry_auth (tm : TokenManager) (file : CookiesFile)
    (st : BaseAPIState) (hok : BaseAPI.construct tm file = .ok st) :
    (∀ (endpoint : String) (payload : Json) (o1 o2 o3 : HttpOutcome) (now : Int) req,
      req ∈ (BaseAPI.make_request st endpoint payload o1 o2 o3 now).platformRequests →
        (∃ v, ("x-s", v) ∈ req.headers)
        ∧ (∃ v, ("x-s-common", v) ∈ req.headers)
        ∧ (∃ v, ("x-t", v) ∈ req.headers)
        ∧ req.cookies = st.cookies
        ∧ List.lookup "a1" req.cookies = some st.a1
        ∧ st.a1 ≠ "")
    ∧ (∀ (note_id xsec_token cursor top : String) (fmts : Option (List String))
        (o1 o2 o3 : HttpOutcome) (now : Int) req,
      req ∈ (CommentsAPI.fetch_comments st note_id xsec_token cursor top fmts
              o1 o2 o3 now).platformRequests →
        (∃ v, ("x-s", v) ∈ req.headers)
        ∧ (∃ v, ("x-s-common", v) ∈ req.headers)
        ∧ (∃ v, ("x-t", v) ∈ req.headers)
        ∧ req.cookies = st.cookies
        ∧ List.lookup "a1" req.cookies = some st.a1
        ∧ st.a1 ≠ "") := by
  have hinv := construct_ok_inv tm file st hok
  constructor
  · intro endpoint payload o1 o2 o3 now req hreq
    rcases make_request_platform st endpoint payload o1 o2 o3 now with
      ⟨hempty, _⟩ | ⟨x_s, x_t, x_s_common, hsingle, _, _⟩
    · rw [hempty] at hreq; cases hreq
    · rw [hsingle, List.mem_singleton] at hreq
      subst hreq
      refine ⟨⟨pyStr x_s, by simp [BaseAPI.build_headers]⟩,
        ⟨pyStr x_s_common, by simp [BaseAPI.build_headers]⟩,
        ⟨pyStr x_t, by simp [BaseAPI.build_headers]⟩, rfl, hinv.2.1, hinv.1⟩
  · intro note_id xsec_token cursor top fmts o1 o2 o3 now req hreq
    rcases fetch_comments_platform st note_id xsec_token cursor top fmts o1 o2 o3 now with
      hempty | ⟨x_s, x_t, x_s_common, u, hsingle⟩
    · rw [hempty] at hreq; cases hreq
    · rw [hsingle, List.mem_singleton] at hreq
      subst hreq
      refine ⟨⟨pyStr x_s, by simp [BaseAPI.build_headers]⟩,
        ⟨pyStr x_s_common, by simp [BaseAPI.build_headers]⟩,
        ⟨pyStr x_t, by simp [BaseAPI.build_headers]⟩, rfl, hinv.2.1, hinv.1⟩

/-- Witness for C5: the concrete platform request of a successful
`_make_request` call carries the `x-s` header. -/
theorem platform_requests_carry_auth_witness :
    ∃ v, ("x-s", v)
      ∈ ((BaseAPI.make_request
          { token_manager := TokenManager.init "u" "k" true
          , base_url := "https://edith.xiaohongshu.com"
          , cookies := pyDict [("a1", "X")], a1 := "X" }
          "/e" Json.null
          (.resp { status := 200
                 , body := Json.obj [("x_s", Json.str "S"), ("x_t", Json.num 1)] })
          (.resp { status := 200
                 , body := Json.obj [("x_s_common", Json.str "C")
                                    , ("expires_at", Json.num 9)] })
          (.resp { status := 200, body := Json.null }) 0).platformRequests.get
        ⟨0, by decide⟩).headers :=
  ((platform_requests_carry_auth (TokenManager.init "u" "k" true)
      (CookiesFile.dictFormat [("a1", "X")])
      { token_manager := TokenManager.init "u" "k" true
      , base_url := "https://edith.xiaohongshu.com"
      , cookies := pyDict [("a1", "X")], a1 := "X" } rfl).1
    "/e" Json.null
    (.resp { status := 200
           , body := Json.obj [("x_s", Json.str "S"), ("x_t", Json.num 1)] })
    (.resp { status := 200
           , body := Json.obj [("x_s_common", Json.str "C"), ("expires_at", Json.num 9)] })
    (.resp { status := 200, body := Json.null }) 0 _ (List.get_mem _ _ _)).1

/-! ## Claim C7 -/

/-- `parse_comment` (and the profile reshaping) are not total on
arbitrary input dictionaries: a non-dict `user_info` (resp. `data`)
field raises `AttributeError`. -/
theorem reshape_not_total_counterexample :
    CommentsAPI.parse_comment (Json.obj [("user_info", Json.str "x")])
      = .error .attributeError
    ∧ UserAPI.profile_of_response (Json.obj [("data", Json.str "x")])
      = .error .attributeError := ⟨rfl, rfl⟩

/-- Mapping `pic.get("url_default", "")` over a list of dicts
succeeds and yields the defaulted lookups. -/
theorem getUrls_ok (elems : List Json) (h : ∀ x ∈ elems, x.isObjB = true) :
    getUrls elems
      = .ok (elems.map (fun pic => specGet pic "url_default" (Json.str ""))) := by
  induction elems with
  | nil => rfl
  | cons p ps ih =>
    have hp := h p (List.mem_cons_self p ps)
    cases p <;> simp [Json.isObjB] at hp
    case obj fields =>
      have hps : ∀ x ∈ ps, x.isObjB = true := fun x hx => h x (List.mem_cons_of_mem _ hx)
      simp [getUrls, Json.getD, specGet, ih hps]

/-- C7 (amended): on input dictionaries whose nested `user_info`,
`pictures`, `data`, `level` and `college` fields are of the expected
types, `parse_comment` and the `get_user_profile` reshaping return
records with exactly the stated key sets and defaults. -/
theorem reshape_records_spec :
    (∀ c, commentWellTyped c = true →
        CommentsAPI.parse_comment c = .ok (parse_comment_shape c))
    ∧ (∀ c, (parse_comment_shape c).map Prod.fst
        = [ "id", "content", "user_nickname", "user_id", "like_count"
          , "sub_comment_count", "create_time", "ip_location", "pictures" ])
    ∧ (∀ r, profileWellTyped r = true →
        UserAPI.profile_of_response r = .ok (profile_shape r))
    ∧ (∀ r, (profile_shape r).map Prod.fst
        = [ "user_id", "nickname", "desc", "gender", "follows", "fans"
          , "interaction", "note_count", "collected_count", "avatar", "level"
          , "location", "college" ]) := by
  refine ⟨?_, fun c => rfl, ?_, fun r => rfl⟩
  · intro c h
    cases c with
    | obj fields =>
      simp only [commentWellTyped, Bool.and_eq_true] at h
      obtain ⟨h1, h2⟩ := h
      cases hu : List.lookup "user_info" fields with
      | none =>
        rw [hu] at h1
        cases hp : List.lookup "pictures" fields with
        | none =>
          simp [CommentsAPI.parse_comment, parse_comment_shape, specGet, hu, hp, getUrls]
        | some pv =>
          rw [hp] at h2
          cases pv <;> simp at h2
          case arr elems =>
            simp [CommentsAPI.parse_comment, parse_comment_shape, specGet, hu, hp,
              getUrls_ok elems h2]
      | some v =>
        rw [hu] at h1
        cases v <;> simp [Json.isObjB] at h1
        case obj ufields =>
          cases hp : List.lookup "pictures" fields with
          | none =>
            simp [CommentsAPI.parse_comment, parse_comment_shape, specGet, hu, hp, getUrls]
          | some pv =>
            rw [hp] at h2
            cases pv <;> simp at h2
            case arr elems =>
              simp [CommentsAPI.parse_comment, parse_comment_shape, specGet, hu, hp,
                getUrls_ok elems h2]
    | null => simp [commentWellTyped] at h
    | bool b => simp [commentWellTyped] at h
    | num n => simp [commentWellTyped] at h
    | str s => simp [commentWellTyped] at h
    | arr elems => simp [commentWellTyped] at h
  · intro r h
    cases r with
    | obj fields =>
      simp only [profileWellTyped] at h
      cases hd : List.lookup "data" fields with
      | none =>
        simp [UserAPI.profile_of_response, profile_shape, specGet, hd]
      | some dv =>
        rw [hd] at h
        cases dv <;> simp at h
        case obj dataFields =>
          obtain ⟨hl, hc⟩ := h
          cases hlv : List.lookup "level" dataFields with
          | none =>
            cases hcv : List.lookup "college" dataFields with
            | none =>
              simp [UserAPI.profile_of_response, profile_shape, specGet, hd, hlv, hcv]
            | some cv =>
              rw [hcv] at hc
              cases cv <;> simp [Json.isObjB] at hc
              case obj cfields =>
                simp [UserAPI.profile_of_response, profile_shape, specGet, hd, hlv, hcv]
          | some lv =>
            rw [hlv] at hl
            cases lv <;> simp [Json.isObjB] at hl
            case obj lfields =>
              cases hcv : List.lookup "college" dataFields with
              | none =>
                simp [UserAPI.profile_of_response, profile_shape, specGet, hd, hlv, hcv]
              | some cv =>
                rw [hcv] at hc
                cases cv <;> simp [Json.isObjB] at hc
                case obj cfields =>
                  simp [UserAPI.profile_of_response, profile_shape, specGet, hd, hlv, hcv]
    | null => simp [profileWellTyped] at h
    | bool b => simp [profileWellTyped] at h
    | num n => simp [profileWellTyped] at h
    | str s => simp [profileWellTyped] at h
    | arr elems => simp [profileWellTyped] at h

/-- Witness for C7 (amended) at a concrete comment. -/
theorem reshape_records_spec_witness :
    CommentsAPI.parse_comment
        (Json.obj [("id", Json.str "c1"), ("like_count", Json.num 7)])
      = .ok (parse_comment_shape
          (Json.obj [("id", Json.str "c1"), ("like_count", Json.num 7)])) :=
  reshape_records_spec.1
    (Json.obj [("id", Json.str "c1"), ("like_count", Json.num 7)]) rfl

/-! ## Claim C1 -/

@[simp]
theorem pagesItems_zero (f : Nat → List Json) (start : Nat) :
    pagesItems f start 0 = [] := by
  simp [pagesItems]

theorem pagesItems_succ (f : Nat → List Json) (start count : Nat) :
    pagesItems f start (count + 1) = f start ++ pagesItems f (start + 1) count := by
  simp [pagesItems, List.range'_succ]

/-- Behaviour of the homefeed page loop: at most `pages` requests,
the accumulator collects exactly the items of the fetched pages, and
every fetched page except possibly the last had a non-empty item
list and a non-empty cursor. -/
theorem get_posts_loop_spec (serv : Nat → HomefeedPage) :
    ∀ (pages idx : Nat) (acc : List Json),
      (HomefeedAPI.get_posts_loop serv pages idx acc).2 ≤ pages
      ∧ (HomefeedAPI.get_posts_loop serv pages idx acc).1
          = acc ++ pagesItems (fun i => (serv i).items) idx
              (HomefeedAPI.get_posts_loop serv pages idx acc).2
      ∧ (∀ j, j + 1 < (HomefeedAPI.get_posts_loop serv pages idx acc).2 →
          (serv (idx + j)).items ≠ [] ∧ (serv (idx + j)).cursor_score ≠ "") := by
  intro pages
  induction pages with
  | zero =>
    intro idx acc
    simp only [HomefeedAPI.get_posts_loop]
    exact ⟨Nat.le_refl 0, by simp, fun j hj => absurd hj (by omega)⟩
  | succ n ih =>
    intro idx acc
    cases hit : (serv idx).items with
    | nil =>
      have hstep : HomefeedAPI.get_posts_loop serv (n + 1) idx acc = (acc, 1) := by
        simp only [HomefeedAPI.get_posts_loop, hit]
      rw [hstep]
      refine ⟨by omega, ?_, fun j hj => absurd hj (by omega)⟩
      simp [pagesItems_succ, hit]
    | cons x xs =>
      by_cases hcur : (serv idx).cursor_score = ""
      · have hstep : HomefeedAPI.get_posts_loop serv (n + 1) idx acc
            = (acc ++ (serv idx).items, 1) := by
          simp only [HomefeedAPI.get_posts_loop, hit, if_pos hcur]
        rw [hstep]
        refine ⟨by omega, ?_, fun j hj => absurd hj (by omega)⟩
        simp [pagesItems_succ]
      · have hstep : HomefeedAPI.get_posts_loop serv (n + 1) idx acc
            = ((HomefeedAPI.get_posts_loop serv n (idx + 1) (acc ++ (serv idx).items)).1,
               (HomefeedAPI.get_posts_loop serv n (idx + 1) (acc ++ (serv idx).items)).2 + 1) := by
          simp only [HomefeedAPI.get_posts_loop, hit, if_neg hcur]
        rw [hstep]
        obtain ⟨ih1, ih2, ih3⟩ := ih (idx + 1) (acc ++ (serv idx).items)
        refine ⟨by omega, ?_, ?_⟩
        · simp only [pagesItems_succ]
          rw [ih2, List.append_assoc]
        · intro j hj
          cases j with
          | zero =>
            refine ⟨?_, ?_⟩
            · rw [Nat.add_zero, hit]; exact List.cons_ne_nil x xs
            · rw [Nat.add_zero]; exact hcur
          | succ k =>
            have hk := ih3 k (by
              simp only [Prod.snd] at hj
              omega)
            have harith : idx + (k + 1) = (idx + 1) + k := by omega
            rw [harith]
            exact hk

/-- Behaviour of the search page loop: the accumulator collects
exactly the items of the fetched pages, and every fetched page except
possibly the last had a non-empty item list and `has_more` true. -/
theorem search_loop_spec (serv : Nat → SearchPage) (num idx : Nat) (acc : List Json) :
    (SearchAPI.search_loop serv num idx acc).1
      = acc ++ pagesItems (fun i => (serv i).items) idx
          (SearchAPI.search_loop serv num idx acc).2
    ∧ (∀ j, j + 1 < (SearchAPI.search_loop serv num idx acc).2 →
        (serv (idx + j)).items ≠ [] ∧ (serv (idx + j)).has_more = true) := by
  by_cases h1 : acc.length < num
  · by_cases h2 : (serv idx).items.isEmpty = true
    · have hstep : SearchAPI.search_loop serv num idx acc = (acc, 1) := by
        rw [SearchAPI.search_loop]
        simp [h1, h2]
      rw [hstep]
      refine ⟨?_, fun j hj => absurd hj (by omega)⟩
      have : (serv idx).items = [] := by
        cases hval : (serv idx).items with
        | nil => rfl
        | cons a l => rw [hval] at h2; simp [List.isEmpty] at h2
      simp [pagesItems_succ, this]
    · have hne : (serv idx).items ≠ [] := by
        intro hval; rw [hval] at h2; simp [List.isEmpty] at h2
      by_cases h3 : (serv idx).has_more = true
      · have hstep : SearchAPI.search_loop serv num idx acc
            = ((SearchAPI.search_loop serv num (idx + 1) (acc ++ (serv idx).items)).1,
               (SearchAPI.search_loop serv num (idx + 1) (acc ++ (serv idx).items)).2 + 1) := by
          rw [SearchAPI.search_loop]
          simp [h1, h2, h3]
        rw [hstep]
        obtain ⟨ih1, ih2⟩ := search_loop_spec serv num (idx + 1) (acc ++ (serv idx).items)
        refine ⟨?_, ?_⟩
        · simp only [pagesItems_succ]
          rw [ih1, List.append_assoc]
        · intro j hj
          cases j with
          | zero => exact ⟨by rw [Nat.add_zero]; exact hne, by rw [Nat.add_zero]; exact h3⟩
          | succ k =>
            have hk := ih2 k (by
              simp only [Prod.snd] at hj
              omega)
            have harith : idx + (k + 1) = (idx + 1) + k := by omega
            rw [harith]
            exact hk
      · have hstep : SearchAPI.search_loop serv num idx acc
            = (acc ++ (serv idx).items, 1) := by
          rw [SearchAPI.search_loop]
          simp [h1, h2, h3]
        rw [hstep]
        refine ⟨?_, fun j hj => absurd hj (by omega)⟩
        simp [pagesItems_succ]
  · have hstep : SearchAPI.search_loop serv num idx acc = (acc, 0) := by
      rw [SearchAPI.search_loop]
      simp [h1]
    rw [hstep]
    exact ⟨by simp, fun j hj => absurd hj (by omega)⟩
termination_by num - acc.length
decreasing_by
  simp only [List.length_append]
  have hpos : 0 < (serv idx).items.length := List.length_pos.mpr hne
  omega

/-- Behaviour of the comments page loop: the accumulator collects
exactly the comments of the fetched pages, and every fetched page
except possibly the last had non-empty comments, a non-empty cursor
and `has_more` true. -/
theorem get_comments_loop_spec (serv : Nat → CommentsPage) (num idx : Nat)
    (acc : List Json) :
    (CommentsAPI.get_comments_loop serv num idx acc).1
      = acc ++ pagesItems (fun i => (serv i).comments) idx
          (CommentsAPI.get_comments_loop serv num idx acc).2
    ∧ (∀ j, j + 1 < (CommentsAPI.get_comments_loop serv num idx acc).2 →
        (serv (idx + j)).comments ≠ [] ∧ (serv (idx + j)).cursor ≠ ""
        ∧ (serv (idx + j)).has_more = true) := by
  by_cases h1 : acc.length < num
  · by_cases h2 : (serv idx).comments.isEmpty = true
    · have hstep : CommentsAPI.get_comments_loop serv num idx acc = (acc, 1) := by
        rw [CommentsAPI.get_comments_loop]
        simp [h1, h2]
      rw [hstep]
      refine ⟨?_, fun j hj => absurd hj (by omega)⟩
      have : (serv idx).comments = [] := by
        cases hval : (serv idx).comments with
        | nil => rfl
        | cons a l => rw [hval] at h2; simp [List.isEmpty] at h2
      simp [pagesItems_succ, this]
    · have hne : (serv idx).comments ≠ [] := by
        intro hval; rw [hval] at h2; simp [List.isEmpty] at h2
      by_cases hcur : (serv idx).cursor = ""
      · have hstep : CommentsAPI.get_comments_loop serv num idx acc
            = (acc ++ (serv idx).comments, 1) := by
          rw [CommentsAPI.get_comments_loop]
          simp [h1, h2, hcur]
        rw [hstep]
        refine ⟨?_, fun j hj => absurd hj (by omega)⟩
        simp [pagesItems_succ]
      · by_cases h3 : (serv idx).has_more = true
        · have hstep : CommentsAPI.get_comments_loop serv num idx acc
              = ((CommentsAPI.get_comments_loop serv num (idx + 1)
                    (acc ++ (serv idx).comments)).1,
                 (CommentsAPI.get_comments_loop serv num (idx + 1)
                    (acc ++ (serv idx).comments)).2 + 1) := by
            rw [CommentsAPI.get_comments_loop]
            simp [h1, h2, hcur, h3]
          rw [hstep]
          obtain ⟨ih1, ih2⟩ := get_comments_loop_spec serv num (idx + 1)
            (acc ++ (serv idx).comments)
          refine ⟨?_, ?_⟩
          · simp only [pagesItems_succ]
            rw [ih1, List.append_assoc]
          · intro j hj
            cases j with
            | zero =>
              exact ⟨by rw [Nat.add_zero]; exact hne,
                by rw [Nat.add_zero]; exact hcur,
                by rw [Nat.add_zero]; exact h3⟩
            | succ k =>
              have hk := ih2 k (by
                simp only [Prod.snd] at hj
                omega)
              have harith : idx + (k + 1) = (idx + 1) + k := by omega
              rw [harith]
              exact hk
        · have hstep : CommentsAPI.get_comments_loop serv num idx acc
              = (acc ++ (serv idx).comments, 1) := by
            rw [CommentsAPI.get_comments_loop]
            simp [h1, h2, hcur, h3]
          rw [hstep]
          refine ⟨?_, fun j hj => absurd hj (by omega)⟩
          simp [pagesItems_succ]
  · have hstep : CommentsAPI.get_comments_loop serv num idx acc = (acc, 0) := by
      rw [CommentsAPI.get_comments_loop]
      simp [h1]
    rw [hstep]
    exact ⟨by simp, fun j hj => absurd hj (by omega)⟩
termination_by num - acc.length
decreasing_by
  simp only [List.length_append]
  have hpos : 0 < (serv idx).comments.length := List.length_pos.mpr hne
  omega

/-- Behaviour of the user-posts page loop: the accumulator collects
exactly the notes of the fetched pages, and every fetched page except
possibly the last had non-empty notes, a non-empty cursor and
`has_more` true. -/
theorem get_user_posts_loop_spec (serv : Nat → UserPostsPage) (num idx : Nat)
    (acc : List Json) :
    (UserAPI.get_user_posts_loop serv num idx acc).1
      = acc ++ pagesItems (fun i => (serv i).notes) idx
          (UserAPI.get_user_posts_loop serv num idx acc).2
    ∧ (∀ j, j + 1 < (UserAPI.get_user_posts_loop serv num idx acc).2 →
        (serv (idx + j)).notes ≠ [] ∧ (serv (idx + j)).cursor ≠ ""
        ∧ (serv (idx + j)).has_more = true) := by
  by_cases h1 : acc.length < num
  · by_cases h2 : (serv idx).notes.isEmpty = true
    · have hstep : UserAPI.get_user_posts_loop serv num idx acc = (acc, 1) := by
        rw [UserAPI.get_user_posts_loop]
        simp [h1, h2]
      rw [hstep]
      refine ⟨?_, fun j hj => absurd hj (by omega)⟩
      have : (serv idx).notes = [] := by
        cases hval : (serv idx).notes with
        | nil => rfl
        | cons a l => rw [hval] at h2; simp [List.isEmpty] at h2
      simp [pagesItems_succ, this]
    · have hne : (serv idx).notes ≠ [] := by
        intro hval; rw [hval] at h2; simp [List.isEmpty] at h2
      by_cases hcur : (serv idx).cursor = ""
      · have hstep : UserAPI.get_user_posts_loop serv num idx acc
            = (acc ++ (serv idx).notes, 1) := by
          rw [UserAPI.get_user_posts_loop]
          simp [h1, h2, hcur]
        rw [hstep]
        refine ⟨?_, fun j hj => absurd hj (by omega)⟩
        simp [pagesItems_succ]
      · by_cases h3 : (serv idx).has_more = true
        · have hstep : UserAPI.get_user_posts_loop serv num idx acc
              = ((UserAPI.get_user_posts_loop serv num (idx + 1)
                    (acc ++ (serv idx).notes)).1,
                 (UserAPI.get_user_posts_loop serv num (idx + 1)
                    (acc ++ (serv idx).notes)).2 + 1) := by
            rw [UserAPI.get_user_posts_loop]
            simp [h1, h2, hcur, h3]
          rw [hstep]
          obtain ⟨ih1, ih2⟩ := get_user_posts_loop_spec serv num (idx + 1)
            (acc ++ (serv idx).notes)
          refine ⟨?_, ?_⟩
          · simp only [pagesItems_succ]
            rw [ih1, List.append_assoc]
          · intro j hj
            cases j with
            | zero =>
              exact ⟨by rw [Nat.add_zero]; exact hne,
                by rw [Nat.add_zero]; exact hcur,
                by rw [Nat.add_zero]; exact h3⟩
            | succ k =>
              have hk := ih2 k (by
                simp only [Prod.snd] at hj
                omega)
              have harith : idx + (k + 1) = (idx + 1) + k := by omega
              rw [harith]
              exact hk
        · have hstep : UserAPI.get_user_posts_loop serv num idx acc
              = (acc ++ (serv idx).notes, 1) := by
            rw [UserAPI.get_user_posts_loop]
            simp [h1, h2, hcur, h3]
          rw [hstep]
          refine ⟨?_, fun j hj => absurd hj (by omega)⟩
          simp [pagesItems_succ]
  · have hstep : UserAPI.get_user_posts_loop serv num idx acc = (acc, 0) := by
      rw [UserAPI.get_user_posts_loop]
      simp [h1]
    rw [hstep]
    exact ⟨by simp, fun j hj => absurd hj (by omega)⟩
termination_by num - acc.length
decreasing_by
  simp only [List.length_append]
  have hpos : 0 < (serv idx).notes.length := List.length_pos.mpr hne
  omega

/-- C1 (amended): each pagination helper stops as soon as a page
reports no more data by the signals that helper consults — empty
items or empty cursor for the homefeed (which never consults
`has_more`), empty items or `has_more` false for search, and empty
items, empty cursor or `has_more` false for comments and user posts —
issuing no further page request, and returns the accumulated items
(truncated to the requested count except for the homefeed). -/
theorem pagination_stop_spec :
    (∀ (serv : Nat → HomefeedPage) (num pages : Nat),
      (HomefeedAPI.get_posts serv num pages).2 ≤ pages
      ∧ (HomefeedAPI.get_posts serv num pages).1
          = pagesItems (fun i => (serv i).items) 0 (HomefeedAPI.get_posts serv num pages).2
      ∧ (∀ j, j + 1 < (HomefeedAPI.get_posts serv num pages).2 →
          (serv j).items ≠ [] ∧ (serv j).cursor_score ≠ ""))
    ∧ (∀ (serv : Nat → SearchPage) (num : Nat),
      (SearchAPI.search serv num).1
        = (pagesItems (fun i => (serv i).items) 0 (SearchAPI.search serv num).2).take num
      ∧ (∀ j, j + 1 < (SearchAPI.search serv num).2 →
          (serv j).items ≠ [] ∧ (serv j).has_more = true))
    ∧ (∀ (serv : Nat → CommentsPage) (num : Nat),
      (CommentsAPI.get_comments serv num).1
        = (pagesItems (fun i => (serv i).comments) 0
            (CommentsAPI.get_comments serv num).2).take num
      ∧ (∀ j, j + 1 < (CommentsAPI.get_comments serv num).2 →
          (serv j).comments ≠ [] ∧ (serv j).cursor ≠ ""
          ∧ (serv j).has_more = true))
    ∧ (∀ (serv : Nat → UserPostsPage) (num : Nat),
      (UserAPI.get_user_posts serv num).1
        = (pagesItems (fun i => (serv i).notes) 0
            (UserAPI.get_user_posts serv num).2).take num
      ∧ (∀ j, j + 1 < (UserAPI.get_user_posts serv num).2 →
          (serv j).notes ≠ [] ∧ (serv j).cursor ≠ ""
          ∧ (serv j).has_more = true)) := by
  refine ⟨?_, ?_, ?_, ?_⟩
  · intro serv num pages
    obtain ⟨hle, heq, hstop⟩ := get_posts_loop_spec serv pages 0 []
    exact ⟨hle, by simpa using heq, fun j hj => by simpa using hstop j hj⟩
  · intro serv num
    obtain ⟨heq, hstop⟩ := search_loop_spec serv num 0 []
    constructor
    · show (SearchAPI.search_loop serv num 0 []).1.take num
        = (pagesItems (fun i => (serv i).items) 0
            (SearchAPI.search_loop serv num 0 []).2).take num
      rw [heq, List.nil_append]
    · exact fun j hj => by simpa using hstop j hj
  · intro serv num
    obtain ⟨heq, hstop⟩ := get_comments_loop_spec serv num 0 []
    constructor
    · show (CommentsAPI.get_comments_loop serv num 0 []).1.take num
        = (pagesItems (fun i => (serv i).comments) 0
            (CommentsAPI.get_comments_loop serv num 0 []).2).take num
      rw [heq, List.nil_append]
    · exact fun j hj => by simpa using hstop j hj
  · intro serv num
    obtain ⟨heq, hstop⟩ := get_user_posts_loop_spec serv num 0 []
    constructor
    · show (UserAPI.get_user_posts_loop serv num 0 []).1.take num
        = (pagesItems (fun i => (serv i).notes) 0
            (UserAPI.get_user_posts_loop serv num 0 []).2).take num
      rw [heq, List.nil_append]
    · exact fun j hj => by simpa using hstop j hj

/-- Counterexample to C1 as stated: the homefeed helper issues a
second page request although the first page reported `has_more`
false; and the comments helper returns a truncation of the
accumulated comments, not the accumulated comments themselves. -/
theorem pagination_claim_counterexample :
    ((hfServerNoMore 0).has_more = false
      ∧ (HomefeedAPI.get_posts hfServerNoMore 20 2).2 = 2)
    ∧ ((commentsServerTwo 0).has_more = false
      ∧ (CommentsAPI.get_comments_loop commentsServerTwo 1 0 []).1
          = [Json.null, Json.null]
      ∧ (CommentsAPI.get_comments commentsServerTwo 1).1 = [Json.null]) := by
  have h0 : CommentsAPI.get_comments_loop commentsServerTwo 1 0 []
      = ([Json.null, Json.null], 1) := by
    rw [CommentsAPI.get_comments_loop]
    simp [commentsServerTwo, List.isEmpty]
  refine ⟨⟨rfl, rfl⟩, rfl, ?_, ?_⟩
  · rw [h0]
  · show (CommentsAPI.get_comments_loop commentsServerTwo 1 0 []).1.take 1 = [Json.null]
    rw [h0]
    rfl

/-- Witness for C1 (amended): the comments loop fetched a second page
only because the first page reported more data by all three signals. -/
theorem pagination_stop_spec_witness :
    (commentsServerOneThenEmpty 0).comments ≠ []
    ∧ (commentsServerOneThenEmpty 0).cursor ≠ ""
    ∧ (commentsServerOneThenEmpty 0).has_more = true :=
  (pagination_stop_spec.2.2.1 commentsServerOneThenEmpty 5).2 0 (by
    have hinner : CommentsAPI.get_comments_loop commentsServerOneThenEmpty 5 1 [Json.null]
        = ([Json.null], 1) := by
      rw [CommentsAPI.get_comments_loop]
      simp [commentsServerOneThenEmpty, List.isEmpty]
    have houter : CommentsAPI.get_comments_loop commentsServerOneThenEmpty 5 0 []
        = ([Json.null], 2) := by
      rw [CommentsAPI.get_comments_loop]
      simp [commentsServerOneThenEmpty, List.isEmpty, hinner]
    show 0 + 1 < (CommentsAPI.get_comments_loop commentsServerOneThenEmpty 5 0 []).2
    rw [houter]
    norm_num)

end XhsApi
